import Mathlib

/-!
Verification development for the tcpmtest USB Type-C Port Manager test
device (a software simulator of a USB Power Delivery port partner).

The definitions below are a shallow embedding of the driver source:

* `drivers/usb/typec/tcpmtest.c` — the event-driven (workqueue) variant,
  embedded under its original function names;
* the older polling worker-thread variant of the same driver (second file
  of the repository) — embedded with an `_old` suffix on the functions in
  which the two variants differ;
* `include/linux/usb/pd_vdo_dp.h` (the VDO_DPM header) and the Google
  pd_vdo_dp.h variant (VDO_MODE_DP) — both present in the repository.

Machine integers are modelled as `Nat` with explicit masking/`% 2^32`
where the C code relies on fixed-width behaviour.  The bit-layout macros
from the generic kernel headers `linux/usb/pd.h` and `linux/usb/pd_vdo.h`
(PD_HEADER, RDO_FIXED, PDO_FIXED, the VDO constructors and accessors) are
reproduced from the standard (v4.14-era) definitions of those headers.
-/

/-! ## Constants from linux/usb/pd.h -/

def PD_CTRL_GOOD_CRC : Nat := 1
def PD_CTRL_GOTO_MIN : Nat := 2
def PD_CTRL_ACCEPT : Nat := 3
def PD_CTRL_REJECT : Nat := 4
def PD_CTRL_PING : Nat := 5
def PD_CTRL_PS_RDY : Nat := 6
def PD_CTRL_GET_SOURCE_CAP : Nat := 7
def PD_CTRL_GET_SINK_CAP : Nat := 8
def PD_CTRL_DR_SWAP : Nat := 9
def PD_CTRL_PR_SWAP : Nat := 10
def PD_CTRL_VCONN_SWAP : Nat := 11
def PD_CTRL_WAIT : Nat := 12
def PD_CTRL_SOFT_RESET : Nat := 13

def PD_DATA_SOURCE_CAP : Nat := 1
def PD_DATA_REQUEST : Nat := 2
def PD_DATA_BIST : Nat := 3
def PD_DATA_SINK_CAP : Nat := 4
def PD_DATA_VENDOR_DEF : Nat := 15

def PD_REV20 : Nat := 1

def PD_HEADER_CNT_SHIFT : Nat := 12
def PD_HEADER_CNT_MASK : Nat := 0x7
def PD_HEADER_ID_SHIFT : Nat := 9
def PD_HEADER_ID_MASK : Nat := 0x7
def PD_HEADER_PWR_ROLE : Nat := 1 <<< 8
def PD_HEADER_REV_SHIFT : Nat := 6
def PD_HEADER_REV_MASK : Nat := 0x3
def PD_HEADER_DATA_ROLE : Nat := 1 <<< 5
def PD_HEADER_TYPE_SHIFT : Nat := 0
def PD_HEADER_TYPE_MASK : Nat := 0xf

/-- Enum typec_role values (typec.h): TYPEC_SINK = 0, TYPEC_SOURCE = 1. -/
def TYPEC_SINK : Nat := 0
def TYPEC_SOURCE : Nat := 1

/-- Enum typec_data_role values (typec.h): TYPEC_DEVICE = 0, TYPEC_HOST = 1. -/
def TYPEC_DEVICE : Nat := 0
def TYPEC_HOST : Nat := 1

/-- PD_HEADER macro from linux/usb/pd.h; PD_HEADER_LE additionally wraps the
result in cpu_to_le16, which is the identity in this model. -/
def PD_HEADER_LE (type pwr data id cnt : Nat) : Nat :=
  ((type &&& PD_HEADER_TYPE_MASK) <<< PD_HEADER_TYPE_SHIFT) |||
  (if pwr = TYPEC_SOURCE then PD_HEADER_PWR_ROLE else 0) |||
  (if data = TYPEC_HOST then PD_HEADER_DATA_ROLE else 0) |||
  (PD_REV20 <<< PD_HEADER_REV_SHIFT) |||
  ((id &&& PD_HEADER_ID_MASK) <<< PD_HEADER_ID_SHIFT) |||
  ((cnt &&& PD_HEADER_CNT_MASK) <<< PD_HEADER_CNT_SHIFT)

def pd_header_cnt (header : Nat) : Nat :=
  (header >>> PD_HEADER_CNT_SHIFT) &&& PD_HEADER_CNT_MASK

def pd_header_type (header : Nat) : Nat :=
  (header >>> PD_HEADER_TYPE_SHIFT) &&& PD_HEADER_TYPE_MASK

def pd_header_id (header : Nat) : Nat :=
  (header >>> PD_HEADER_ID_SHIFT) &&& PD_HEADER_ID_MASK

def PDO_MAX_OBJECTS : Nat := 7

/-! ## PDO and RDO layout from linux/usb/pd.h -/

def PDO_TYPE_FIXED : Nat := 0
def PDO_TYPE_BATT : Nat := 1
def PDO_TYPE_VAR : Nat := 2

def PDO_FIXED_DUAL_ROLE : Nat := 1 <<< 29
def PDO_FIXED_SUSPEND : Nat := 1 <<< 28
def PDO_FIXED_EXTPOWER : Nat := 1 <<< 27
def PDO_FIXED_USB_COMM : Nat := 1 <<< 26
def PDO_FIXED_DATA_SWAP : Nat := 1 <<< 25

def PDO_FIXED_VOLT (mv : Nat) : Nat := ((mv / 50) &&& 0x3ff) <<< 10
def PDO_FIXED_CURR (ma : Nat) : Nat := ((ma / 10) &&& 0x3ff) <<< 0

def PDO_FIXED (mv ma flags : Nat) : Nat :=
  (PDO_TYPE_FIXED <<< 30) ||| flags ||| PDO_FIXED_VOLT mv ||| PDO_FIXED_CURR ma

def RDO_OBJ_POS_SHIFT : Nat := 28
def RDO_OBJ_POS_MASK : Nat := 0x7
def RDO_GIVE_BACK : Nat := 1 <<< 27
def RDO_CAP_MISMATCH : Nat := 1 <<< 26
def RDO_USB_COMM : Nat := 1 <<< 25
def RDO_NO_SUSPEND : Nat := 1 <<< 24
def RDO_CURR_MASK : Nat := 0x3ff
def RDO_FIXED_OP_CURR_SHIFT : Nat := 10
def RDO_FIXED_MAX_CURR_SHIFT : Nat := 0

def RDO_OBJ (idx : Nat) : Nat := (idx &&& RDO_OBJ_POS_MASK) <<< RDO_OBJ_POS_SHIFT

def RDO_FIXED_OP_CURR (ma : Nat) : Nat :=
  (((ma / 10) &&& RDO_CURR_MASK) <<< RDO_FIXED_OP_CURR_SHIFT)

def RDO_FIXED_MAX_CURR (ma : Nat) : Nat :=
  (((ma / 10) &&& RDO_CURR_MASK) <<< RDO_FIXED_MAX_CURR_SHIFT)

def RDO_FIXED (idx op_ma max_ma flags : Nat) : Nat :=
  RDO_OBJ idx ||| flags ||| RDO_FIXED_OP_CURR op_ma ||| RDO_FIXED_MAX_CURR max_ma

def rdo_index (rdo : Nat) : Nat := (rdo >>> RDO_OBJ_POS_SHIFT) &&& RDO_OBJ_POS_MASK

def rdo_op_current (rdo : Nat) : Nat :=
  ((rdo >>> RDO_FIXED_OP_CURR_SHIFT) &&& RDO_CURR_MASK) * 10

def rdo_max_current (rdo : Nat) : Nat :=
  ((rdo >>> RDO_FIXED_MAX_CURR_SHIFT) &&& RDO_CURR_MASK) * 10

/-! ## VDO layout from linux/usb/pd_vdo.h -/

def VDO_SVDM_TYPE : Nat := 1 <<< 15
def CMDT_INIT : Nat := 0
def CMDT_RSP_ACK : Nat := 1
def CMD_DISCOVER_IDENT : Nat := 1
def CMD_DISCOVER_SVID : Nat := 2
def CMD_DISCOVER_MODES : Nat := 3
def IDH_PTYPE_AMA : Nat := 5
def AMA_VCONN_PWR_1W5 : Nat := 1
def AMA_USBSS_BBONLY : Nat := 3
def USB_SID_PD : Nat := 0xff00
def USB_SID_DISPLAYPORT : Nat := 0xff01

def PD_VDO_VID (vdo : Nat) : Nat := vdo >>> 16
def PD_VDO_CMDT (vdo : Nat) : Nat := (vdo >>> 6) &&& 0x3
def PD_VDO_CMD (vdo : Nat) : Nat := vdo &&& 0x1f

/-- Structured VDM header constructor (pd_vdo.h layout: SVID in bits 31:16,
SVDM-type bit 15, version 14:13, object position 10:8, command type 7:6,
command 4:0). -/
def VDO_STR (svid ver opos cmdt cmd : Nat) : Nat :=
  ((svid &&& 0xffff) <<< 16) ||| VDO_SVDM_TYPE ||| ((ver &&& 0x3) <<< 13) |||
  ((opos &&& 0x7) <<< 8) ||| ((cmdt &&& 0x3) <<< 6) ||| (cmd &&& 0x1f)

def VDO_IDH (usbh usbd ptype is_modal vid : Nat) : Nat :=
  ((usbh &&& 1) <<< 31) ||| ((usbd &&& 1) <<< 30) ||| ((ptype &&& 0x7) <<< 27) |||
  ((is_modal &&& 1) <<< 26) ||| (vid &&& 0xffff)

def VDO_PRODUCT (pid bcd : Nat) : Nat := ((pid &&& 0xffff) <<< 16) ||| (bcd &&& 0xffff)

def VDO_AMA (hw fw tx1d tx2d rx1d rx2d vcpwr vcr vbr usbss : Nat) : Nat :=
  ((hw &&& 0xf) <<< 28) ||| ((fw &&& 0xf) <<< 24) |||
  ((tx1d &&& 1) <<< 11) ||| ((tx2d &&& 1) <<< 10) |||
  ((rx1d &&& 1) <<< 9) ||| ((rx2d &&& 1) <<< 8) |||
  ((vcpwr &&& 0x7) <<< 5) ||| ((vcr &&& 1) <<< 4) ||| ((vbr &&& 1) <<< 3) |||
  (usbss &&& 0x7)

def VDO_SVID (svid0 svid1 : Nat) : Nat := ((svid0 &&& 0xffff) <<< 16) ||| (svid1 &&& 0xffff)

/-- VDO_MODE_DP from the Google pd_vdo_dp.h header in the repository (used by
the DiscoverModes reply of the event-driven variant). -/
def VDO_MODE_DP (snkp srcp usb gdr sign sdir : Nat) : Nat :=
  ((snkp &&& 0xff) <<< 16) ||| ((srcp &&& 0xff) <<< 8) ||| ((usb &&& 1) <<< 7) |||
  ((gdr &&& 1) <<< 6) ||| ((sign &&& 0xf) <<< 2) ||| (sdir &&& 0x3)

def MODE_DP_PIN_C : Nat := 0x04
def MODE_DP_V13 : Nat := 0x1
def MODE_DP_SNK : Nat := 0x1

/-- VDO_DPM from include/linux/usb/pd_vdo_dp.h in the repository (used by the
the DiscoverModes reply of the polling-thread variant). -/
def VDO_DPM (ufpd dfpd nusb20 rec sign cap : Nat) : Nat :=
  (ufpd <<< 16) ||| (dfpd <<< 8) ||| (nusb20 <<< 7) ||| (rec <<< 6) |||
  (sign <<< 2) ||| cap

def DPM_DFP_D_PIN_C : Nat := 0x04
def DPM_SIGN_SUPP_DP13 : Nat := 0x1
def DPM_PORT_CAP_UFP_D : Nat := 1

/-! ## Driver data model (struct tcpmtest_data and related enums) -/

/-- Values of the anonymous TESTMODE enum in tcpmtest.c (event-driven
variant: NONE = 0, SNK, SRC, RESET). -/
def TESTMODE_NONE : Nat := 0
def TESTMODE_SNK : Nat := 1
def TESTMODE_SRC : Nat := 2
def TESTMODE_RESET : Nat := 3

/-- Enum simstate from tcpmtest.c. -/
inductive Simstate where
  | SSTATE_NONE
  | SSTATE_SNK_START
  | SSTATE_SNK_RUN
  | SSTATE_SRC_START
  | SSTATE_SRC_VBUS
  | SSTATE_SRC_RX_SOURCE_CAP
  | SSTATE_SRC_WAIT_FOR_REQUEST
  | SSTATE_SRC_SEND_REQUEST
  | SSTATE_SRC_SEND_PS_RDY
  | SSTATE_SRC_RUN
  | SSTATE_TO_NONE
  deriving DecidableEq, Repr

export Simstate (SSTATE_NONE SSTATE_SNK_START SSTATE_SNK_RUN SSTATE_SRC_START
  SSTATE_SRC_VBUS SSTATE_SRC_RX_SOURCE_CAP SSTATE_SRC_WAIT_FOR_REQUEST
  SSTATE_SRC_SEND_REQUEST SSTATE_SRC_SEND_PS_RDY SSTATE_SRC_RUN SSTATE_TO_NONE)

/-- Enum typec_cc_status from typec.h. -/
inductive CcStatus where
  | TYPEC_CC_OPEN
  | TYPEC_CC_RA
  | TYPEC_CC_RD
  | TYPEC_CC_RP_DEF
  | TYPEC_CC_RP_1_5
  | TYPEC_CC_RP_3_0
  deriving DecidableEq, Repr

export CcStatus (TYPEC_CC_OPEN TYPEC_CC_RA TYPEC_CC_RD TYPEC_CC_RP_DEF
  TYPEC_CC_RP_1_5 TYPEC_CC_RP_3_0)

/-- Enum tcpm_transmit_type from tcpm.h. -/
inductive TxType where
  | TCPC_TX_SOP
  | TCPC_TX_SOP_PRIME
  | TCPC_TX_SOP_PRIME_PRIME
  | TCPC_TX_SOP_DEBUG_PRIME
  | TCPC_TX_SOP_DEBUG_PRIME_PRIME
  | TCPC_TX_HARD_RESET
  | TCPC_TX_CABLE_RESET
  | TCPC_TX_BIST_MODE_2
  deriving DecidableEq, Repr

export TxType (TCPC_TX_SOP TCPC_TX_HARD_RESET)

/-- Enum tcpm_transmit_status values from tcpm.h. -/
def TCPC_TX_SUCCESS : Nat := 0
def TCPC_TX_DISCARDED : Nat := 1
def TCPC_TX_FAILED : Nat := 2

/-- Struct pd_message: a 16-bit header plus up to 7 32-bit data objects. -/
structure PdMessage where
  header : Nat
  payload : List Nat
  deriving DecidableEq, Repr

/-- Callbacks the simulator issues into the Port Manager (tcpm_* entry
points called by the driver). -/
inductive Notif where
  | cc_change
  | vbus_change
  | pd_hard_reset
  | tcpc_reset
  | pd_receive (msg : PdMessage)
  | pd_transmit_complete (status : Nat)
  deriving DecidableEq, Repr

/-- The mutable simulator state of struct tcpmtest_data (the fields touched
by the simulation engine; 32-bit counters are Nat values kept below 2^32 by
explicit reduction). -/
structure SimDState where
  cc1_status : CcStatus
  cc2_status : CcStatus
  vbus_present : Bool
  pd_rx_enable : Bool
  request_mode_set : Bool
  request_msg_rx : Bool
  request_msg_tx : Bool
  request_vbus_chng : Bool
  state : Simstate
  tx_type : TxType
  tx_msg : PdMessage
  rx_msg : PdMessage
  rx_id : Nat
  sysfs_mode : Nat
  sysfs_mode_req : Nat
  deriving DecidableEq, Repr

/-- Modulus of the C type unsigned int, used for the rx_id counter. -/
def U32 : Nat := 4294967296

/-- Initial state produced by devm_kzalloc in tcpmtest_probe: every field
zero (OPEN CC lines, mode NONE, state SSTATE_NONE, all flags clear). -/
def initState : SimDState where
  cc1_status := TYPEC_CC_OPEN
  cc2_status := TYPEC_CC_OPEN
  vbus_present := false
  pd_rx_enable := false
  request_mode_set := false
  request_msg_rx := false
  request_msg_tx := false
  request_vbus_chng := false
  state := SSTATE_NONE
  tx_type := TCPC_TX_SOP
  tx_msg := ⟨0, []⟩
  rx_msg := ⟨0, []⟩
  rx_id := 0
  sysfs_mode := TESTMODE_NONE
  sysfs_mode_req := TESTMODE_NONE

/-! ## Driver internals: hard reset and message synthesizers -/

/-- Function tcpmtest_hard_reset: clears the whole request latch word and the
message-ID counter; when from_peer it also calls tcpm_pd_hard_reset. -/
def tcpmtest_hard_reset (s : SimDState) (from_peer : Bool) :
    SimDState × List Notif :=
  ({ s with request_mode_set := false, request_msg_rx := false,
            request_msg_tx := false, request_vbus_chng := false,
            rx_id := 0 },
   if from_peer then [Notif.pd_hard_reset] else [])

/-- Function tcpmtest_mk_snk_request: stages a Request data message carrying
RDO_FIXED(1, 1500, 1500, RDO_USB_COMM), consuming one message ID. -/
def tcpmtest_mk_snk_request (s : SimDState) : SimDState :=
  { s with
    rx_msg := ⟨PD_HEADER_LE PD_DATA_REQUEST TYPEC_SINK TYPEC_DEVICE s.rx_id 1,
               [RDO_FIXED 1 1500 1500 RDO_USB_COMM]⟩,
    rx_id := (s.rx_id + 1) % U32,
    request_msg_rx := true }

/-- Function tcpmtest_mk_snk_sink_cap: stages a SinkCapabilities data message
with PDO_FIXED(5000, 2000, PDO_FIXED_USB_COMM). -/
def tcpmtest_mk_snk_sink_cap (s : SimDState) : SimDState :=
  { s with
    rx_msg := ⟨PD_HEADER_LE PD_DATA_SINK_CAP TYPEC_SINK TYPEC_DEVICE s.rx_id 1,
               [PDO_FIXED 5000 2000 PDO_FIXED_USB_COMM]⟩,
    rx_id := (s.rx_id + 1) % U32,
    request_msg_rx := true }

/-- Function tcpmtest_mk_snk_disc_ident_resp_vdm: stages the five-object
DiscoverIdentity ACK. -/
def tcpmtest_mk_snk_disc_ident_resp_vdm (s : SimDState) : SimDState :=
  { s with
    rx_msg := ⟨PD_HEADER_LE PD_DATA_VENDOR_DEF TYPEC_SINK TYPEC_DEVICE s.rx_id 5,
               [VDO_STR USB_SID_PD 0 0 CMDT_RSP_ACK CMD_DISCOVER_IDENT,
                VDO_IDH 0 1 IDH_PTYPE_AMA 1 0x2109,
                0,
                VDO_PRODUCT 0x0101 0x0001,
                VDO_AMA 0 0 0 0 0 0 AMA_VCONN_PWR_1W5 1 1 AMA_USBSS_BBONLY]⟩,
    rx_id := (s.rx_id + 1) % U32,
    request_msg_rx := true }

/-- Function tcpmtest_mk_snk_disc_svid_resp_vdm: stages the DiscoverSVID ACK
advertising the DisplayPort SVID. -/
def tcpmtest_mk_snk_disc_svid_resp_vdm (s : SimDState) : SimDState :=
  { s with
    rx_msg := ⟨PD_HEADER_LE PD_DATA_VENDOR_DEF TYPEC_SINK TYPEC_DEVICE s.rx_id 2,
               [VDO_STR USB_SID_PD 0 0 CMDT_RSP_ACK CMD_DISCOVER_SVID,
                VDO_SVID USB_SID_DISPLAYPORT 0x0000]⟩,
    rx_id := (s.rx_id + 1) % U32,
    request_msg_rx := true }

/-- Function tcpmtest_mk_snk_disc_modes_resp_vdm of the event-driven variant:
for the DisplayPort SVID it stages a DiscoverModes ACK whose mode object is
built with VDO_MODE_DP; any other SVID is ignored. -/
def tcpmtest_mk_snk_disc_modes_resp_vdm (s : SimDState) (svid : Nat) : SimDState :=
  if svid ≠ USB_SID_DISPLAYPORT then s
  else
    { s with
      rx_msg := ⟨PD_HEADER_LE PD_DATA_VENDOR_DEF TYPEC_SINK TYPEC_DEVICE s.rx_id 2,
                 [VDO_STR USB_SID_DISPLAYPORT 0 0 CMDT_RSP_ACK CMD_DISCOVER_MODES,
                  VDO_MODE_DP 0 MODE_DP_PIN_C 0 1 MODE_DP_V13 MODE_DP_SNK]⟩,
      rx_id := (s.rx_id + 1) % U32,
      request_msg_rx := true }

/-- Function tcpmtest_mk_snk_disc_modes_resp_vdm of the polling-thread
variant: identical except the mode object is built with VDO_DPM. -/
def tcpmtest_mk_snk_disc_modes_resp_vdm_old (s : SimDState) (svid : Nat) : SimDState :=
  if svid ≠ USB_SID_DISPLAYPORT then s
  else
    { s with
      rx_msg := ⟨PD_HEADER_LE PD_DATA_VENDOR_DEF TYPEC_SINK TYPEC_DEVICE s.rx_id 2,
                 [VDO_STR USB_SID_DISPLAYPORT 0 0 CMDT_RSP_ACK CMD_DISCOVER_MODES,
                  VDO_DPM 0 DPM_DFP_D_PIN_C 0 0 DPM_SIGN_SUPP_DP13 DPM_PORT_CAP_UFP_D]⟩,
      rx_id := (s.rx_id + 1) % U32,
      request_msg_rx := true }

/-- Function tcpmtest_mk_src_data_source_cap: stages the SourceCapabilities
advertisement with the single macro-derived fixed 5 V / 3 A PDO. -/
def tcpmtest_mk_src_data_source_cap (s : SimDState) : SimDState :=
  { s with
    rx_msg := ⟨PD_HEADER_LE PD_DATA_SOURCE_CAP TYPEC_SOURCE TYPEC_HOST s.rx_id 1,
               [PDO_FIXED 5000 3000
                 (PDO_FIXED_DUAL_ROLE ||| PDO_FIXED_EXTPOWER |||
                  PDO_FIXED_USB_COMM ||| PDO_FIXED_DATA_SWAP)]⟩,
    rx_id := (s.rx_id + 1) % U32,
    request_msg_rx := true }

/-- Function tcpmtest_mk_src_accept: stages the Accept control message. -/
def tcpmtest_mk_src_accept (s : SimDState) : SimDState :=
  { s with
    rx_msg := ⟨PD_HEADER_LE PD_CTRL_ACCEPT TYPEC_SOURCE TYPEC_HOST s.rx_id 0, []⟩,
    rx_id := (s.rx_id + 1) % U32,
    request_msg_rx := true }

/-- Function tcpmtest_mk_src_ps_rdy: stages the PS_RDY control message. -/
def tcpmtest_mk_src_ps_rdy (s : SimDState) : SimDState :=
  { s with
    rx_msg := ⟨PD_HEADER_LE PD_CTRL_PS_RDY TYPEC_SOURCE TYPEC_HOST s.rx_id 0, []⟩,
    rx_id := (s.rx_id + 1) % U32,
    request_msg_rx := true }

/-! ## Inbound message classifiers (event-driven variant) -/

/-- Function tcpmtest_process_tx_vdm_for_snk of the event-driven variant:
responds to initiation-type structured VDMs only. -/
def tcpmtest_process_tx_vdm_for_snk (s : SimDState) : SimDState :=
  let vdo_hdr := s.tx_msg.payload.headD 0
  if vdo_hdr &&& VDO_SVDM_TYPE = 0 then s
  else
    let cmdt := PD_VDO_CMDT vdo_hdr
    let cmd := PD_VDO_CMD vdo_hdr
    if cmd = CMD_DISCOVER_IDENT then
      if cmdt = CMDT_INIT then tcpmtest_mk_snk_disc_ident_resp_vdm s else s
    else if cmd = CMD_DISCOVER_SVID then
      if cmdt = CMDT_INIT then tcpmtest_mk_snk_disc_svid_resp_vdm s else s
    else if cmd = CMD_DISCOVER_MODES then
      if cmdt = CMDT_INIT then
        tcpmtest_mk_snk_disc_modes_resp_vdm s (PD_VDO_VID vdo_hdr)
      else s
    else s

/-- Function tcpmtest_process_tx_vdm_for_snk of the polling-thread variant:
same dispatch, but the DiscoverModes reply uses the VDO_DPM mode object. -/
def tcpmtest_process_tx_vdm_for_snk_old (s : SimDState) : SimDState :=
  let vdo_hdr := s.tx_msg.payload.headD 0
  if vdo_hdr &&& VDO_SVDM_TYPE = 0 then s
  else
    let cmdt := PD_VDO_CMDT vdo_hdr
    let cmd := PD_VDO_CMD vdo_hdr
    if cmd = CMD_DISCOVER_IDENT then
      if cmdt = CMDT_INIT then tcpmtest_mk_snk_disc_ident_resp_vdm s else s
    else if cmd = CMD_DISCOVER_SVID then
      if cmdt = CMDT_INIT then tcpmtest_mk_snk_disc_svid_resp_vdm s else s
    else if cmd = CMD_DISCOVER_MODES then
      if cmdt = CMDT_INIT then
        tcpmtest_mk_snk_disc_modes_resp_vdm_old s (PD_VDO_VID vdo_hdr)
      else s
    else s

/-- Function tcpmtest_process_tx_msg_for_snk of the event-driven variant
(identical dispatch structure in the polling variant; see the _old copy). -/
def tcpmtest_process_tx_msg_for_snk (s : SimDState) : SimDState × List Notif :=
  if s.tx_type = TCPC_TX_HARD_RESET then tcpmtest_hard_reset s false
  else if s.tx_type ≠ TCPC_TX_SOP then (s, [])
  else
    let header := s.tx_msg.header
    let cnt := pd_header_cnt header
    let t := pd_header_type header
    if cnt = 0 then
      if t = PD_CTRL_GOOD_CRC ∨ t = PD_CTRL_GOTO_MIN ∨ t = PD_CTRL_ACCEPT then (s, [])
      else if t = PD_CTRL_REJECT then tcpmtest_hard_reset s true
      else if t = PD_CTRL_PING ∨ t = PD_CTRL_PS_RDY then (s, [])
      else if t = PD_CTRL_GET_SOURCE_CAP then tcpmtest_hard_reset s true
      else if t = PD_CTRL_GET_SINK_CAP then (tcpmtest_mk_snk_sink_cap s, [])
      else if t = PD_CTRL_DR_SWAP ∨ t = PD_CTRL_PR_SWAP ∨ t = PD_CTRL_VCONN_SWAP then
        tcpmtest_hard_reset s true
      else if t = PD_CTRL_WAIT then (s, [])
      else if t = PD_CTRL_SOFT_RESET then ({ s with rx_id := 0 }, [])
      else (s, [])
    else
      if t = PD_DATA_SOURCE_CAP then (tcpmtest_mk_snk_request s, [])
      else if t = PD_DATA_REQUEST then tcpmtest_hard_reset s true
      else if t = PD_DATA_BIST then (s, [])
      else if t = PD_DATA_SINK_CAP then tcpmtest_hard_reset s true
      else if t = PD_DATA_VENDOR_DEF then (tcpmtest_process_tx_vdm_for_snk s, [])
      else (s, [])

/-- Function tcpmtest_process_tx_msg_for_snk of the polling-thread variant. -/
def tcpmtest_process_tx_msg_for_snk_old (s : SimDState) : SimDState × List Notif :=
  if s.tx_type = TCPC_TX_HARD_RESET then tcpmtest_hard_reset s false
  else if s.tx_type ≠ TCPC_TX_SOP then (s, [])
  else
    let header := s.tx_msg.header
    let cnt := pd_header_cnt header
    let t := pd_header_type header
    if cnt = 0 then
      if t = PD_CTRL_GOOD_CRC ∨ t = PD_CTRL_GOTO_MIN ∨ t = PD_CTRL_ACCEPT then (s, [])
      else if t = PD_CTRL_REJECT then tcpmtest_hard_reset s true
      else if t = PD_CTRL_PING ∨ t = PD_CTRL_PS_RDY then (s, [])
      else if t = PD_CTRL_GET_SOURCE_CAP then tcpmtest_hard_reset s true
      else if t = PD_CTRL_GET_SINK_CAP then (tcpmtest_mk_snk_sink_cap s, [])
      else if t = PD_CTRL_DR_SWAP ∨ t = PD_CTRL_PR_SWAP ∨ t = PD_CTRL_VCONN_SWAP then
        tcpmtest_hard_reset s true
      else if t = PD_CTRL_WAIT then (s, [])
      else if t = PD_CTRL_SOFT_RESET then ({ s with rx_id := 0 }, [])
      else (s, [])
    else
      if t = PD_DATA_SOURCE_CAP then (tcpmtest_mk_snk_request s, [])
      else if t = PD_DATA_REQUEST then tcpmtest_hard_reset s true
      else if t = PD_DATA_BIST then (s, [])
      else if t = PD_DATA_SINK_CAP then tcpmtest_hard_reset s true
      else if t = PD_DATA_VENDOR_DEF then (tcpmtest_process_tx_vdm_for_snk_old s, [])
      else (s, [])

/-- Function tcpmtest_process_tx_vdm_for_src of the event-driven variant: an
empty body. -/
def tcpmtest_process_tx_vdm_for_src (s : SimDState) : SimDState := s

/-- Function tcpmtest_process_tx_msg_for_src of the event-driven variant.
Note that PD_CTRL_ACCEPT falls through to the PD_CTRL_REJECT case (hard
reset) and PD_DATA_SINK_CAP falls through to the silent PD_DATA_BIST case. -/
def tcpmtest_process_tx_msg_for_src (s : SimDState) : SimDState × List Notif :=
  if s.tx_type = TCPC_TX_HARD_RESET then tcpmtest_hard_reset s false
  else if s.tx_type ≠ TCPC_TX_SOP then (s, [])
  else
    let header := s.tx_msg.header
    let cnt := pd_header_cnt header
    let t := pd_header_type header
    if cnt = 0 then
      if t = PD_CTRL_GOOD_CRC ∨ t = PD_CTRL_GOTO_MIN then (s, [])
      else if t = PD_CTRL_ACCEPT ∨ t = PD_CTRL_REJECT then tcpmtest_hard_reset s true
      else if t = PD_CTRL_PING ∨ t = PD_CTRL_PS_RDY then (s, [])
      else if t = PD_CTRL_GET_SOURCE_CAP then (tcpmtest_mk_src_data_source_cap s, [])
      else if t = PD_CTRL_GET_SINK_CAP then tcpmtest_hard_reset s true
      else if t = PD_CTRL_DR_SWAP ∨ t = PD_CTRL_PR_SWAP ∨ t = PD_CTRL_VCONN_SWAP then
        tcpmtest_hard_reset s true
      else if t = PD_CTRL_WAIT then (s, [])
      else if t = PD_CTRL_SOFT_RESET then ({ s with rx_id := 0 }, [])
      else (s, [])
    else
      if t = PD_DATA_SOURCE_CAP then tcpmtest_hard_reset s true
      else if t = PD_DATA_REQUEST then
        (if s.state = SSTATE_SRC_WAIT_FOR_REQUEST then
           { s with state := SSTATE_SRC_SEND_REQUEST }
         else s, [])
      else if t = PD_DATA_BIST ∨ t = PD_DATA_SINK_CAP then (s, [])
      else if t = PD_DATA_VENDOR_DEF then (tcpmtest_process_tx_vdm_for_src s, [])
      else (s, [])

/-- Function tcpmtest_process_tx_msg_for_src of the polling-thread variant:
Accept is absorbed, GetSourceCap hard-resets, GetSinkCap stages a
SinkCapabilities reply, a Request stages the sink Request message, and VDMs
go through the sink VDM handler. -/
def tcpmtest_process_tx_msg_for_src_old (s : SimDState) : SimDState × List Notif :=
  if s.tx_type = TCPC_TX_HARD_RESET then tcpmtest_hard_reset s false
  else if s.tx_type ≠ TCPC_TX_SOP then (s, [])
  else
    let header := s.tx_msg.header
    let cnt := pd_header_cnt header
    let t := pd_header_type header
    if cnt = 0 then
      if t = PD_CTRL_GOOD_CRC ∨ t = PD_CTRL_GOTO_MIN ∨ t = PD_CTRL_ACCEPT then (s, [])
      else if t = PD_CTRL_REJECT then tcpmtest_hard_reset s true
      else if t = PD_CTRL_PING ∨ t = PD_CTRL_PS_RDY then (s, [])
      else if t = PD_CTRL_GET_SOURCE_CAP then tcpmtest_hard_reset s true
      else if t = PD_CTRL_GET_SINK_CAP then (tcpmtest_mk_snk_sink_cap s, [])
      else if t = PD_CTRL_DR_SWAP ∨ t = PD_CTRL_PR_SWAP ∨ t = PD_CTRL_VCONN_SWAP then
        tcpmtest_hard_reset s true
      else if t = PD_CTRL_WAIT then (s, [])
      else if t = PD_CTRL_SOFT_RESET then ({ s with rx_id := 0 }, [])
      else (s, [])
    else
      if t = PD_DATA_SOURCE_CAP then tcpmtest_hard_reset s true
      else if t = PD_DATA_REQUEST then (tcpmtest_mk_snk_request s, [])
      else if t = PD_DATA_BIST then (s, [])
      else if t = PD_DATA_SINK_CAP then tcpmtest_hard_reset s true
      else if t = PD_DATA_VENDOR_DEF then (tcpmtest_process_tx_vdm_for_snk_old s, [])
      else (s, [])

/-! ## Simulation state machine and event dispatcher (event-driven variant) -/

/-- Function tcpmtest_state_machine: one advance step.  Returns the updated
state, the callbacks issued, and the delay armed via mod_delayed_work (the
SSTATE_SRC_START branch arms a 5 ms VBUS-ramp delay). -/
def tcpmtest_state_machine (s : SimDState) (timeout : Bool) :
    SimDState × List Notif × Option Nat :=
  match s.state with
  | SSTATE_NONE => (s, [], none)
  | SSTATE_SNK_START =>
      ({ s with vbus_present := false, cc1_status := TYPEC_CC_RD,
                cc2_status := TYPEC_CC_RA, state := SSTATE_SNK_RUN },
       [Notif.cc_change], none)
  | SSTATE_SNK_RUN => (s, [], none)
  | SSTATE_SRC_START =>
      ({ s with cc1_status := TYPEC_CC_OPEN, cc2_status := TYPEC_CC_RP_3_0,
                state := SSTATE_SRC_VBUS },
       [Notif.cc_change], some 5)
  | SSTATE_SRC_VBUS =>
      if timeout then
        ({ s with vbus_present := true, request_vbus_chng := true,
                  state := SSTATE_SRC_RX_SOURCE_CAP }, [], none)
      else (s, [], none)
  | SSTATE_SRC_RX_SOURCE_CAP =>
      if s.pd_rx_enable then
        ({ tcpmtest_mk_src_data_source_cap s with
             state := SSTATE_SRC_WAIT_FOR_REQUEST }, [], none)
      else (s, [], none)
  | SSTATE_SRC_WAIT_FOR_REQUEST => (s, [], none)
  | SSTATE_SRC_SEND_REQUEST =>
      ({ tcpmtest_mk_src_accept s with state := SSTATE_SRC_SEND_PS_RDY },
       [], none)
  | SSTATE_SRC_SEND_PS_RDY =>
      if !s.request_msg_rx then
        ({ tcpmtest_mk_src_ps_rdy s with state := SSTATE_SRC_RUN }, [], none)
      else (s, [], none)
  | SSTATE_SRC_RUN => (s, [], none)
  | SSTATE_TO_NONE =>
      let s1 := { s with vbus_present := false, cc1_status := TYPEC_CC_OPEN,
                         cc2_status := TYPEC_CC_OPEN }
      let s2 := (tcpmtest_hard_reset s1 false).1
      (({ s2 with sysfs_mode := TESTMODE_NONE, state := SSTATE_NONE }),
       [if s.sysfs_mode_req = TESTMODE_RESET then Notif.tcpc_reset
        else Notif.cc_change], none)

/-- Mode-change block at the top of tcpmtest_event_work: consumes the
mode_set request flag and applies the mode-change table. -/
def tcpmtest_event_mode (s : SimDState) : SimDState :=
  if s.request_mode_set then
    let s := { s with request_mode_set := false }
    if s.sysfs_mode_req = TESTMODE_NONE ∨ s.sysfs_mode_req = TESTMODE_RESET then
      if s.sysfs_mode ≠ TESTMODE_NONE then { s with state := SSTATE_TO_NONE } else s
    else if s.sysfs_mode_req = TESTMODE_SNK then
      if s.sysfs_mode = TESTMODE_NONE then
        { s with sysfs_mode := TESTMODE_SNK, state := SSTATE_SNK_START }
      else s
    else if s.sysfs_mode_req = TESTMODE_SRC then
      if s.sysfs_mode = TESTMODE_NONE then
        { s with sysfs_mode := TESTMODE_SRC, state := SSTATE_SRC_START }
      else s
    else s
  else s

/-- VBUS-change block of tcpmtest_event_work: consumes the latched flag and
forwards one vbus-change notification. -/
def tcpmtest_event_vbus (s : SimDState) : SimDState × List Notif :=
  if s.request_vbus_chng then
    ({ s with request_vbus_chng := false }, [Notif.vbus_change])
  else (s, [])

/-- Inbound-message block of tcpmtest_event_work: consumes the msg_tx flag,
delegates to the role-specific classifier and reports a transmit-completion
status. -/
def tcpmtest_event_tx (s : SimDState) : SimDState × List Notif :=
  if s.request_msg_tx then
    let s := { s with request_msg_tx := false }
    if s.sysfs_mode = TESTMODE_SNK then
      let (s1, n) := tcpmtest_process_tx_msg_for_snk s
      (s1, n ++ [Notif.pd_transmit_complete TCPC_TX_SUCCESS])
    else if s.sysfs_mode = TESTMODE_SRC then
      let (s1, n) := tcpmtest_process_tx_msg_for_src s
      (s1, n ++ [Notif.pd_transmit_complete TCPC_TX_SUCCESS])
    else (s, [Notif.pd_transmit_complete TCPC_TX_FAILED])
  else (s, [])

/-- Function tcpmtest_event_work: one serialized dispatcher pass processing
the latch in the fixed order mode-change, VBUS-change, inbound message, one
state-machine advance (timer arming is represented by explicit timer
events in the trace semantics). -/
def tcpmtest_event_work (s : SimDState) : SimDState × List Notif :=
  let s1 := tcpmtest_event_mode s
  let (s2, n2) := tcpmtest_event_vbus s1
  let (s3, n3) := tcpmtest_event_tx s2
  let (s4, n4, _) := tcpmtest_state_machine s3 false
  (s4, n2 ++ n3 ++ n4)

/-- Function tcpmtest_tmo_work: the delayed-completion callback; delivers a
staged message (tcpm_pd_receive) if one is pending, then advances the state
machine with the timeout flag set. -/
def tcpmtest_tmo_work (s : SimDState) : SimDState × List Notif :=
  let (s1, n1) :=
    if s.request_msg_rx then
      ({ s with request_msg_rx := false }, [Notif.pd_receive s.rx_msg])
    else (s, [])
  let (s2, n2, _) := tcpmtest_state_machine s1 true
  (s2, n1 ++ n2)

/-! ## Port-controller facade operations -/

/-- Function tcpmtest_set_vbus: stores source OR sink as the present VBUS
value and latches a VBUS-change (queueing the dispatcher, the returned
Bool) only when the value changed. -/
def tcpmtest_set_vbus (s : SimDState) (source sink : Bool) : SimDState × Bool :=
  let vbus_present := source || sink
  if vbus_present ≠ s.vbus_present then
    ({ s with request_vbus_chng := true, vbus_present := vbus_present }, true)
  else (s, false)

/-- Function tcpmtest_set_pd_rx: records the enable value and queues the
dispatcher only on an actual change. -/
def tcpmtest_set_pd_rx (s : SimDState) (enable : Bool) : SimDState × Bool :=
  if s.pd_rx_enable ≠ enable then
    ({ s with pd_rx_enable := enable }, true)
  else (s, false)

/-- Function tcpmtest_pd_transmit: records the transmit type and (when
present) the message, latches msg_tx and queues the dispatcher. -/
def tcpmtest_pd_transmit (s : SimDState) (type : TxType) (msg : Option PdMessage) :
    SimDState :=
  { s with tx_type := type,
           tx_msg := msg.getD s.tx_msg,
           request_msg_tx := true }

/-- Mode write through the sysfs control file (tcpmtest_sysfs_store): a
recognized mode value records the request and latches mode_set; anything
else is rejected with no state change. -/
def tcpmtest_sysfs_store_mode (s : SimDState) (m : Nat) : SimDState :=
  if m = TESTMODE_NONE ∨ m = TESTMODE_RESET ∨ m = TESTMODE_SNK ∨ m = TESTMODE_SRC then
    { s with sysfs_mode_req := m, request_mode_set := true }
  else s

/-! ## Trace semantics -/

/-- External stimuli of one simulator instance: facade calls and operator
writes record intent; work and timer events are the serialized dispatcher
and delayed-completion executions.  Scheduling is left to the event list,
which over-approximates the real workqueue schedules. -/
inductive Ev where
  | set_mode (m : Nat)
  | set_vbus (source sink : Bool)
  | set_pd_rx (enable : Bool)
  | transmit (type : TxType) (msg : Option PdMessage)
  | work
  | timer
  deriving DecidableEq, Repr

/-- One event applied to the simulator state, with the callbacks issued. -/
def stepEv (s : SimDState) : Ev → SimDState × List Notif
  | Ev.set_mode m => (tcpmtest_sysfs_store_mode s m, [])
  | Ev.set_vbus source sink => ((tcpmtest_set_vbus s source sink).1, [])
  | Ev.set_pd_rx enable => ((tcpmtest_set_pd_rx s enable).1, [])
  | Ev.transmit type msg => (tcpmtest_pd_transmit s type msg, [])
  | Ev.work => tcpmtest_event_work s
  | Ev.timer => tcpmtest_tmo_work s

/-- Run a list of events from a state, accumulating all callbacks. -/
def execEvs (s : SimDState) : List Ev → SimDState × List Notif
  | [] => (s, [])
  | e :: es =>
      let (s1, n1) := stepEv s e
      let (s2, n2) := execEvs s1 es
      (s2, n1 ++ n2)

/-! ## Request-PDO logging (tcpmtest_log_request_pdo) -/

/-- Index computation of tcpmtest_log_request_pdo: the C declaration is
unsigned int index = rdo_index(rdo) - 1, which wraps modulo 2^32 when the
object-position field of the RDO is zero. -/
def tcpmtest_log_request_pdo_index (rdo : Nat) : Nat :=
  (rdo_index rdo + (U32 - 1)) % U32

/-- Total model of the src_cap_pdo_type[index] array read that follows: the
array has PDO_MAX_OBJECTS entries, so the access is in bounds exactly when
the computed index is below PDO_MAX_OBJECTS. -/
def src_cap_pdo_type_read (cache : List Nat) (rdo : Nat) : Option Nat :=
  cache.get? (tcpmtest_log_request_pdo_index rdo)

/-- Cache contents as they stand after observing the single-PDO source
capability message (all remaining entries hold the zero-initialized
PDO_TYPE_FIXED): a concrete in-bounds cache of size PDO_MAX_OBJECTS. -/
def src_cap_pdo_type_init : List Nat := List.replicate PDO_MAX_OBJECTS PDO_TYPE_FIXED

/-! ## Observation helpers and concrete scenario inputs -/

/-- Headers of the messages delivered to the Port Manager (the
tcpm_pd_receive callbacks), as pairs of object count and message type. -/
def deliveredHeaders (ns : List Notif) : List (Nat × Nat) :=
  ns.filterMap fun n =>
    match n with
    | Notif.pd_receive m => some (pd_header_cnt m.header, pd_header_type m.header)
    | _ => none

/-- Projection of the simulator state that drops the payload words of the
staged outbound message (its header and every other field are retained). -/
def stripRxState (x : SimDState) : SimDState :=
  { x with rx_msg := ⟨x.rx_msg.header, []⟩ }

/-- Comparison of two classifier results that ignores the payload words of
the staged outbound message (header, flags, counters and callbacks are all
retained). -/
def stripRxPayload (r : SimDState × List Notif) : SimDState × List Notif :=
  (stripRxState r.1, r.2)

/-- Invariant tying the active mode to the state machine: whenever the
active mode is NONE the state machine is parked in SSTATE_NONE. -/
def ModeIdleInv (s : SimDState) : Prop :=
  s.sysfs_mode = TESTMODE_NONE → s.state = SSTATE_NONE

/-- Well-formed Request message sent by the Port Manager in reply to the
SourceCapabilities message of the simulator (object position 1). -/
def reqMsgC1 : PdMessage :=
  ⟨PD_HEADER_LE PD_DATA_REQUEST TYPEC_SINK TYPEC_DEVICE 0 1,
   [RDO_FIXED 1 1500 1500 RDO_USB_COMM]⟩

/-- Source-session round-trip schedule: select source mode, run the
dispatcher, let the VBUS-ramp timer fire, enable PD receive, run the
dispatcher (stages SourceCapabilities), deliver it, transmit the Request,
run the dispatcher (stages Accept), deliver it (stages PS_RDY on the same
timer pass), deliver PS_RDY. -/
def evsC1 : List Ev :=
  [Ev.set_mode TESTMODE_SRC, Ev.work, Ev.timer, Ev.set_pd_rx true, Ev.work,
   Ev.timer, Ev.transmit TCPC_TX_SOP (some reqMsgC1), Ev.work, Ev.timer, Ev.timer]

/-- Simulator state in which the Port Manager has just transmitted an Accept
control message over SOP (the message-ID counter is at 5 so that a reset to
zero is observable). -/
def sAcceptTx : SimDState :=
  { initState with
    sysfs_mode := TESTMODE_SRC, state := SSTATE_SRC_RUN,
    tx_type := TCPC_TX_SOP,
    tx_msg := ⟨PD_HEADER_LE PD_CTRL_ACCEPT TYPEC_SINK TYPEC_HOST 0 0, []⟩,
    rx_id := 5 }

/-- Simulator state for the C2 witness: a GoodCRC control message
transmitted over SOP. -/
def sGoodCrcTx : SimDState :=
  { initState with
    tx_type := TCPC_TX_SOP,
    tx_msg := ⟨PD_HEADER_LE PD_CTRL_GOOD_CRC TYPEC_SINK TYPEC_HOST 0 0, []⟩,
    rx_id := 5 }

/-- Simulator state of Scenario D: source session in SSTATE_SRC_RUN, with an
unsolicited SinkCapabilities data message transmitted over SOP. -/
def sSinkCapTx : SimDState :=
  { initState with
    sysfs_mode := TESTMODE_SRC, state := SSTATE_SRC_RUN,
    vbus_present := true, pd_rx_enable := true,
    tx_type := TCPC_TX_SOP,
    tx_msg := ⟨PD_HEADER_LE PD_DATA_SINK_CAP TYPEC_SINK TYPEC_HOST 0 1,
               [PDO_FIXED 5000 500 PDO_FIXED_USB_COMM]⟩,
    rx_id := 5 }

/-- Idle simulator state with a latched mode-change request for NONE. -/
def sModeNoneReq : SimDState :=
  { initState with request_mode_set := true, sysfs_mode_req := TESTMODE_NONE }

/-- Simulator state in which the Port Manager has just transmitted a
GetSinkCap control message over SOP while the simulator acts as source. -/
def sGetSinkCapTx : SimDState :=
  { initState with
    sysfs_mode := TESTMODE_SRC, state := SSTATE_SRC_RUN,
    tx_type := TCPC_TX_SOP,
    tx_msg := ⟨PD_HEADER_LE PD_CTRL_GET_SINK_CAP TYPEC_SINK TYPEC_HOST 0 0, []⟩,
    rx_id := 3 }

/-- Simulator state for the C6 witness: sink session with a single-PDO
SourceCapabilities data message transmitted over SOP. -/
def sSourceCapTx : SimDState :=
  { initState with
    sysfs_mode := TESTMODE_SNK, state := SSTATE_SNK_RUN,
    cc1_status := TYPEC_CC_RD, cc2_status := TYPEC_CC_RA,
    tx_type := TCPC_TX_SOP,
    tx_msg := ⟨PD_HEADER_LE PD_DATA_SOURCE_CAP TYPEC_SOURCE TYPEC_HOST 0 1,
               [PDO_FIXED 5000 900 PDO_FIXED_USB_COMM]⟩,
    rx_id := 2 }

/-- Simulator state for the C5 witness: a SoftReset control message
transmitted over SOP with a nonzero message-ID counter. -/
def sSoftResetTx : SimDState :=
  { initState with
    sysfs_mode := TESTMODE_SNK, state := SSTATE_SNK_RUN,
    tx_type := TCPC_TX_SOP,
    tx_msg := ⟨PD_HEADER_LE PD_CTRL_SOFT_RESET TYPEC_SINK TYPEC_HOST 4 0, []⟩,
    rx_id := 6 }

/-! ## Helper lemmas -/

theorem and_seven_eq_mod (n : Nat) : n &&& 7 = n % 8 := by
  simpa using Nat.and_pow_two_sub_one_eq_mod n 3

theorem succ_mod_u32_mod8 (c : Nat) : ((c + 1) % U32) % 8 = (c % 8 + 1) % 8 := by
  have h8 : (8 : Nat) ∣ U32 := by norm_num [U32]
  rw [Nat.mod_mod_of_dvd _ h8, Nat.add_mod]

theorem hdr_fields_snk_request (id : Nat) :
    pd_header_cnt (PD_HEADER_LE PD_DATA_REQUEST TYPEC_SINK TYPEC_DEVICE id 1) = 1 ∧
    pd_header_type (PD_HEADER_LE PD_DATA_REQUEST TYPEC_SINK TYPEC_DEVICE id 1) = PD_DATA_REQUEST ∧
    pd_header_id (PD_HEADER_LE PD_DATA_REQUEST TYPEC_SINK TYPEC_DEVICE id 1) = id % 8 := by
  have hlt : id % 8 < 8 := Nat.mod_lt _ (by norm_num)
  simp only [PD_HEADER_LE, pd_header_cnt, pd_header_type, pd_header_id, PD_DATA_REQUEST,
    TYPEC_SINK, TYPEC_SOURCE, TYPEC_DEVICE, TYPEC_HOST, PD_HEADER_TYPE_MASK,
    PD_HEADER_TYPE_SHIFT, PD_HEADER_PWR_ROLE, PD_HEADER_DATA_ROLE, PD_REV20,
    PD_HEADER_REV_SHIFT, PD_HEADER_ID_MASK, PD_HEADER_ID_SHIFT, PD_HEADER_CNT_MASK,
    PD_HEADER_CNT_SHIFT, and_seven_eq_mod]
  generalize id % 8 = b at hlt ⊢
  interval_cases b <;> decide

theorem hdr_fields_snk_sink_cap (id : Nat) :
    pd_header_cnt (PD_HEADER_LE PD_DATA_SINK_CAP TYPEC_SINK TYPEC_DEVICE id 1) = 1 ∧
    pd_header_type (PD_HEADER_LE PD_DATA_SINK_CAP TYPEC_SINK TYPEC_DEVICE id 1) = PD_DATA_SINK_CAP ∧
    pd_header_id (PD_HEADER_LE PD_DATA_SINK_CAP TYPEC_SINK TYPEC_DEVICE id 1) = id % 8 := by
  have hlt : id % 8 < 8 := Nat.mod_lt _ (by norm_num)
  simp only [PD_HEADER_LE, pd_header_cnt, pd_header_type, pd_header_id, PD_DATA_SINK_CAP,
    TYPEC_SINK, TYPEC_SOURCE, TYPEC_DEVICE, TYPEC_HOST, PD_HEADER_TYPE_MASK,
    PD_HEADER_TYPE_SHIFT, PD_HEADER_PWR_ROLE, PD_HEADER_DATA_ROLE, PD_REV20,
    PD_HEADER_REV_SHIFT, PD_HEADER_ID_MASK, PD_HEADER_ID_SHIFT, PD_HEADER_CNT_MASK,
    PD_HEADER_CNT_SHIFT, and_seven_eq_mod]
  generalize id % 8 = b at hlt ⊢
  interval_cases b <;> decide

theorem hdr_fields_src_source_cap (id : Nat) :
    pd_header_cnt (PD_HEADER_LE PD_DATA_SOURCE_CAP TYPEC_SOURCE TYPEC_HOST id 1) = 1 ∧
    pd_header_type (PD_HEADER_LE PD_DATA_SOURCE_CAP TYPEC_SOURCE TYPEC_HOST id 1) = PD_DATA_SOURCE_CAP ∧
    pd_header_id (PD_HEADER_LE PD_DATA_SOURCE_CAP TYPEC_SOURCE TYPEC_HOST id 1) = id % 8 := by
  have hlt : id % 8 < 8 := Nat.mod_lt _ (by norm_num)
  simp only [PD_HEADER_LE, pd_header_cnt, pd_header_type, pd_header_id, PD_DATA_SOURCE_CAP,
    TYPEC_SINK, TYPEC_SOURCE, TYPEC_DEVICE, TYPEC_HOST, PD_HEADER_TYPE_MASK,
    PD_HEADER_TYPE_SHIFT, PD_HEADER_PWR_ROLE, PD_HEADER_DATA_ROLE, PD_REV20,
    PD_HEADER_REV_SHIFT, PD_HEADER_ID_MASK, PD_HEADER_ID_SHIFT, PD_HEADER_CNT_MASK,
    PD_HEADER_CNT_SHIFT, and_seven_eq_mod]
  generalize id % 8 = b at hlt ⊢
  interval_cases b <;> decide

theorem hdr_fields_src_accept (id : Nat) :
    pd_header_cnt (PD_HEADER_LE PD_CTRL_ACCEPT TYPEC_SOURCE TYPEC_HOST id 0) = 0 ∧
    pd_header_type (PD_HEADER_LE PD_CTRL_ACCEPT TYPEC_SOURCE TYPEC_HOST id 0) = PD_CTRL_ACCEPT ∧
    pd_header_id (PD_HEADER_LE PD_CTRL_ACCEPT TYPEC_SOURCE TYPEC_HOST id 0) = id % 8 := by
  have hlt : id % 8 < 8 := Nat.mod_lt _ (by norm_num)
  simp only [PD_HEADER_LE, pd_header_cnt, pd_header_type, pd_header_id, PD_CTRL_ACCEPT,
    TYPEC_SINK, TYPEC_SOURCE, TYPEC_DEVICE, TYPEC_HOST, PD_HEADER_TYPE_MASK,
    PD_HEADER_TYPE_SHIFT, PD_HEADER_PWR_ROLE, PD_HEADER_DATA_ROLE, PD_REV20,
    PD_HEADER_REV_SHIFT, PD_HEADER_ID_MASK, PD_HEADER_ID_SHIFT, PD_HEADER_CNT_MASK,
    PD_HEADER_CNT_SHIFT, and_seven_eq_mod]
  generalize id % 8 = b at hlt ⊢
  interval_cases b <;> decide

theorem hdr_fields_src_ps_rdy (id : Nat) :
    pd_header_cnt (PD_HEADER_LE PD_CTRL_PS_RDY TYPEC_SOURCE TYPEC_HOST id 0) = 0 ∧
    pd_header_type (PD_HEADER_LE PD_CTRL_PS_RDY TYPEC_SOURCE TYPEC_HOST id 0) = PD_CTRL_PS_RDY ∧
    pd_header_id (PD_HEADER_LE PD_CTRL_PS_RDY TYPEC_SOURCE TYPEC_HOST id 0) = id % 8 := by
  have hlt : id % 8 < 8 := Nat.mod_lt _ (by norm_num)
  simp only [PD_HEADER_LE, pd_header_cnt, pd_header_type, pd_header_id, PD_CTRL_PS_RDY,
    TYPEC_SINK, TYPEC_SOURCE, TYPEC_DEVICE, TYPEC_HOST, PD_HEADER_TYPE_MASK,
    PD_HEADER_TYPE_SHIFT, PD_HEADER_PWR_ROLE, PD_HEADER_DATA_ROLE, PD_REV20,
    PD_HEADER_REV_SHIFT, PD_HEADER_ID_MASK, PD_HEADER_ID_SHIFT, PD_HEADER_CNT_MASK,
    PD_HEADER_CNT_SHIFT, and_seven_eq_mod]
  generalize id % 8 = b at hlt ⊢
  interval_cases b <;> decide

theorem snk_proc_mode (s : SimDState) :
    (tcpmtest_process_tx_msg_for_snk s).1.sysfs_mode = s.sysfs_mode := by
  unfold tcpmtest_process_tx_msg_for_snk tcpmtest_process_tx_vdm_for_snk
    tcpmtest_mk_snk_disc_modes_resp_vdm tcpmtest_mk_snk_disc_ident_resp_vdm
    tcpmtest_mk_snk_disc_svid_resp_vdm tcpmtest_mk_snk_sink_cap
    tcpmtest_mk_snk_request tcpmtest_hard_reset
  dsimp only
  simp only [apply_ite (fun p : SimDState × List Notif => p.1.sysfs_mode),
             apply_ite SimDState.sysfs_mode, ite_self]

theorem src_proc_mode (s : SimDState) :
    (tcpmtest_process_tx_msg_for_src s).1.sysfs_mode = s.sysfs_mode := by
  unfold tcpmtest_process_tx_msg_for_src tcpmtest_process_tx_vdm_for_src
    tcpmtest_mk_src_data_source_cap tcpmtest_hard_reset
  dsimp only
  simp only [apply_ite (fun p : SimDState × List Notif => p.1.sysfs_mode),
             apply_ite SimDState.sysfs_mode, ite_self]

theorem inv_event_mode (s : SimDState) (h : ModeIdleInv s) :
    ModeIdleInv (tcpmtest_event_mode s) := by
  unfold ModeIdleInv at *
  unfold tcpmtest_event_mode
  dsimp only
  split_ifs <;> simp_all [TESTMODE_NONE, TESTMODE_SNK, TESTMODE_SRC, TESTMODE_RESET]

theorem inv_event_vbus (s : SimDState) (h : ModeIdleInv s) :
    ModeIdleInv (tcpmtest_event_vbus s).1 := by
  unfold ModeIdleInv at *
  unfold tcpmtest_event_vbus
  split_ifs <;> simp_all

theorem inv_event_tx (s : SimDState) (h : ModeIdleInv s) :
    ModeIdleInv (tcpmtest_event_tx s).1 := by
  unfold ModeIdleInv at *
  unfold tcpmtest_event_tx
  dsimp only
  split_ifs with h1 h2 h3
  · intro hm
    rw [snk_proc_mode] at hm
    simp_all [TESTMODE_SNK, TESTMODE_NONE]
  · intro hm
    rw [src_proc_mode] at hm
    simp_all [TESTMODE_SRC, TESTMODE_NONE]
  · simp_all
  · simp_all

theorem inv_state_machine (s : SimDState) (t : Bool) (h : ModeIdleInv s) :
    ModeIdleInv (tcpmtest_state_machine s t).1 := by
  unfold ModeIdleInv at *
  cases hs : s.state <;>
    cases t <;>
    cases hpd : s.pd_rx_enable <;>
    cases hrx : s.request_msg_rx <;>
    simp_all [tcpmtest_state_machine, tcpmtest_mk_src_data_source_cap,
      tcpmtest_mk_src_accept, tcpmtest_mk_src_ps_rdy, tcpmtest_hard_reset,
      TESTMODE_NONE]

theorem event_work_fst (s : SimDState) :
    (tcpmtest_event_work s).1 =
      (tcpmtest_state_machine
        (tcpmtest_event_tx (tcpmtest_event_vbus (tcpmtest_event_mode s)).1).1 false).1 := by
  unfold tcpmtest_event_work
  rcases hv : tcpmtest_event_vbus (tcpmtest_event_mode s) with ⟨s2, n2⟩
  dsimp only
  rcases ht : tcpmtest_event_tx s2 with ⟨s3, n3⟩
  dsimp only
  rcases hm : tcpmtest_state_machine s3 false with ⟨s4, n4, d4⟩
  rw [hv]
  dsimp only
  rw [ht]
  dsimp only
  rw [hm]

theorem tmo_work_fst (s : SimDState) :
    (tcpmtest_tmo_work s).1 =
      (tcpmtest_state_machine
        (if s.request_msg_rx then { s with request_msg_rx := false } else s) true).1 := by
  unfold tcpmtest_tmo_work
  by_cases h : s.request_msg_rx
  · simp only [h, if_true]
  · simp only [h, Bool.false_eq_true, if_false]

theorem inv_event_work (s : SimDState) (h : ModeIdleInv s) :
    ModeIdleInv (tcpmtest_event_work s).1 := by
  rw [event_work_fst]
  exact inv_state_machine _ false (inv_event_tx _ (inv_event_vbus _ (inv_event_mode s h)))

theorem inv_tmo_work (s : SimDState) (h : ModeIdleInv s) :
    ModeIdleInv (tcpmtest_tmo_work s).1 := by
  rw [tmo_work_fst]
  apply inv_state_machine _ true
  by_cases hrx : s.request_msg_rx
  · simp only [hrx, if_true]
    exact h
  · simp only [hrx, Bool.false_eq_true, if_false]
    exact h

theorem inv_stepEv (s : SimDState) (e : Ev) (h : ModeIdleInv s) :
    ModeIdleInv (stepEv s e).1 := by
  cases e with
  | set_mode m =>
      unfold ModeIdleInv at *
      simp only [stepEv, tcpmtest_sysfs_store_mode]
      split_ifs <;> simp_all
  | set_vbus source sink =>
      unfold ModeIdleInv at *
      simp only [stepEv, tcpmtest_set_vbus]
      split_ifs <;> simp_all
  | set_pd_rx enable =>
      unfold ModeIdleInv at *
      simp only [stepEv, tcpmtest_set_pd_rx]
      split_ifs <;> simp_all
  | transmit type msg =>
      unfold ModeIdleInv at *
      simp only [stepEv, tcpmtest_pd_transmit]
      simp_all
  | work => exact inv_event_work s h
  | timer => exact inv_tmo_work s h

theorem inv_execEvs (evs : List Ev) (s : SimDState) (h : ModeIdleInv s) :
    ModeIdleInv (execEvs s evs).1 := by
  induction evs generalizing s with
  | nil => exact h
  | cons e es ih =>
      simp only [execEvs]
      rcases hst : stepEv s e with ⟨s1, n1⟩
      rcases hrest : execEvs s1 es with ⟨s2, n2⟩
      dsimp only
      have h1 := inv_stepEv s e h
      rw [hst] at h1
      have h2 := ih s1 h1
      rw [hrest] at h2
      exact h2

theorem armed_only_from_idle (s : SimDState) (h : ModeIdleInv s) (m : Nat)
    (hd : (tcpmtest_event_mode (tcpmtest_sysfs_store_mode s m)).state = SSTATE_SNK_START ∨
          (tcpmtest_event_mode (tcpmtest_sysfs_store_mode s m)).state = SSTATE_SRC_START) :
    s.state = SSTATE_NONE ∨ s.state = SSTATE_SNK_START ∨ s.state = SSTATE_SRC_START := by
  unfold ModeIdleInv at h
  unfold tcpmtest_sysfs_store_mode tcpmtest_event_mode at hd
  dsimp only at hd
  split_ifs at hd <;> simp_all [TESTMODE_NONE, TESTMODE_SNK, TESTMODE_SRC, TESTMODE_RESET]

/-! ## Claim theorems -/

/-- C1: in Source mode, with PD-receive enabled and a well-formed Request in
reply to SourceCapabilities, the session reaches SSTATE_SRC_RUN having
delivered to the Port Manager exactly SourceCapabilities, then Accept, then
PowerReady, in that order; the advance step from SSTATE_SRC_SEND_REQUEST
stages an Accept control message and moves to SSTATE_SRC_SEND_PS_RDY, and
the advance step from SSTATE_SRC_SEND_PS_RDY stages the PS_RDY control
message and moves to SSTATE_SRC_RUN only when the staged-message flag
(request_msg_rx) is already clear, and stays put with no new message while
the flag is still set. -/
theorem tcpmtest_c1_src_roundtrip :
    ((execEvs initState evsC1).1.state = SSTATE_SRC_RUN ∧
     deliveredHeaders (execEvs initState evsC1).2 =
       [(1, PD_DATA_SOURCE_CAP), (0, PD_CTRL_ACCEPT), (0, PD_CTRL_PS_RDY)]) ∧
    (∀ (s : SimDState) (t : Bool),
      tcpmtest_state_machine { s with state := SSTATE_SRC_SEND_REQUEST } t =
        ({ tcpmtest_mk_src_accept { s with state := SSTATE_SRC_SEND_REQUEST } with
             state := SSTATE_SRC_SEND_PS_RDY }, [], none)) ∧
    (∀ (s : SimDState) (t : Bool),
      tcpmtest_state_machine
          { s with state := SSTATE_SRC_SEND_PS_RDY, request_msg_rx := true } t =
        ({ s with state := SSTATE_SRC_SEND_PS_RDY, request_msg_rx := true },
         [], none)) ∧
    (∀ (s : SimDState) (t : Bool),
      tcpmtest_state_machine
          { s with state := SSTATE_SRC_SEND_PS_RDY, request_msg_rx := false } t =
        ({ tcpmtest_mk_src_ps_rdy
             { s with state := SSTATE_SRC_SEND_PS_RDY, request_msg_rx := false } with
             state := SSTATE_SRC_RUN }, [], none)) ∧
    (∀ s : SimDState,
      pd_header_cnt (tcpmtest_mk_src_accept s).rx_msg.header = 0 ∧
      pd_header_type (tcpmtest_mk_src_accept s).rx_msg.header = PD_CTRL_ACCEPT ∧
      (tcpmtest_mk_src_accept s).request_msg_rx = true ∧
      pd_header_cnt (tcpmtest_mk_src_ps_rdy s).rx_msg.header = 0 ∧
      pd_header_type (tcpmtest_mk_src_ps_rdy s).rx_msg.header = PD_CTRL_PS_RDY ∧
      (tcpmtest_mk_src_ps_rdy s).request_msg_rx = true) := by
  refine ⟨by decide, fun s t => rfl, fun s t => rfl, fun s t => rfl, fun s => ?_⟩
  obtain ⟨hc1, ht1, -⟩ := hdr_fields_src_accept s.rx_id
  obtain ⟨hc2, ht2, -⟩ := hdr_fields_src_ps_rdy s.rx_id
  exact ⟨hc1, ht1, rfl, hc2, ht2, rfl⟩

/-- C7: tcpmtest_set_vbus stores source OR sink as the VBUS-present value,
latches a VBUS-change (and queues a dispatch, the second component) exactly
when the value differs from the one previously stored, and a second call
with the same pair latches nothing further. -/
theorem tcpmtest_c7_set_vbus (s : SimDState) (source sink : Bool) :
    ((tcpmtest_set_vbus s source sink).1.vbus_present = (source || sink)) ∧
    ((tcpmtest_set_vbus s source sink).2 = true ↔ (source || sink) ≠ s.vbus_present) ∧
    ((tcpmtest_set_vbus s source sink).1.request_vbus_chng =
       if (source || sink) = s.vbus_present then s.request_vbus_chng else true) ∧
    (tcpmtest_set_vbus (tcpmtest_set_vbus s source sink).1 source sink =
       ((tcpmtest_set_vbus s source sink).1, false)) := by
  unfold tcpmtest_set_vbus
  by_cases h : (source || sink) = s.vbus_present
  · simp [h]
  · simp [h, Ne.symm h]

/-- C8: the advance step from SSTATE_TO_NONE clears VBUS, opens both CC
lines, clears the whole request latch and the message-ID counter, issues a
full controller-reset notification when the operator requested the reset
mode and a plain CC-change notification otherwise, and lands in SSTATE_NONE
with the active mode set back to NONE. -/
theorem tcpmtest_c8_transition_to_idle (s : SimDState) (t : Bool) :
    tcpmtest_state_machine { s with state := SSTATE_TO_NONE } t =
      ({ s with vbus_present := false, cc1_status := TYPEC_CC_OPEN,
                cc2_status := TYPEC_CC_OPEN,
                request_mode_set := false, request_msg_rx := false,
                request_msg_tx := false, request_vbus_chng := false,
                rx_id := 0, sysfs_mode := TESTMODE_NONE, state := SSTATE_NONE },
       [if s.sysfs_mode_req = TESTMODE_RESET then Notif.tcpc_reset
        else Notif.cc_change],
       none) := rfl

/-- C10: the cache index computed by tcpmtest_log_request_pdo for an RDO
whose object-position field is zero wraps to 2^32 - 1 (the C declaration is
an unsigned int), which is far outside the PDO_MAX_OBJECTS-entry
src_cap_pdo_type array, so the array read runs out of bounds: in the total
Option model the read returns none for that reachable input. -/
theorem tcpmtest_c10_oob_index :
    rdo_index 0 = 0 ∧
    tcpmtest_log_request_pdo_index 0 = U32 - 1 ∧
    ¬ tcpmtest_log_request_pdo_index 0 < PDO_MAX_OBJECTS ∧
    src_cap_pdo_type_init.length = PDO_MAX_OBJECTS ∧
    src_cap_pdo_type_read src_cap_pdo_type_init 0 = none ∧
    (tcpmtest_pd_transmit initState TCPC_TX_SOP
        (some ⟨PD_HEADER_LE PD_DATA_REQUEST TYPEC_SINK TYPEC_DEVICE 0 1, [0]⟩)
      ).tx_msg.payload = [0] := by
  refine ⟨rfl, by decide, by decide, rfl, ?_, rfl⟩
  decide

/-- C2 counterexample: an Accept control message transmitted over SOP while
the simulator acts as source is not absorbed; it triggers the peer-initiated
hard reset (the pending-request flags and the message-ID counter are cleared
and the Port Manager is notified of a hard reset from the peer). -/
theorem tcpmtest_c2_counterexample :
    pd_header_cnt sAcceptTx.tx_msg.header = 0 ∧
    pd_header_type sAcceptTx.tx_msg.header = PD_CTRL_ACCEPT ∧
    sAcceptTx.tx_type = TCPC_TX_SOP ∧
    sAcceptTx.rx_id = 5 ∧
    tcpmtest_process_tx_msg_for_src sAcceptTx ≠ (sAcceptTx, []) ∧
    (tcpmtest_process_tx_msg_for_src sAcceptTx).2 = [Notif.pd_hard_reset] ∧
    (tcpmtest_process_tx_msg_for_src sAcceptTx).1.rx_id = 0 := by
  decide

/-- C2 (amended): for every control message transmitted over SOP, GoodCRC,
GotoMin, Ping and PS_RDY are absorbed with no reaction and no state change
in both roles, and Accept is absorbed in the Sink role, while in the Source
role Accept triggers the same peer-initiated hard reset as Reject; Reject
and the DR/PR/Vconn swap requests trigger the peer-initiated hard reset in
both roles, as does GetSourceCap in the Sink role; SoftReset sets only the
message-ID counter to zero; and GetSinkCap in the Sink role stages a
SinkCapabilities reply. -/
theorem tcpmtest_c2_control_msgs (s : SimDState)
    (hsop : s.tx_type = TCPC_TX_SOP)
    (hcnt : pd_header_cnt s.tx_msg.header = 0) :
    (pd_header_type s.tx_msg.header = PD_CTRL_GOOD_CRC →
      tcpmtest_process_tx_msg_for_snk s = (s, []) ∧
      tcpmtest_process_tx_msg_for_src s = (s, [])) ∧
    (pd_header_type s.tx_msg.header = PD_CTRL_GOTO_MIN →
      tcpmtest_process_tx_msg_for_snk s = (s, []) ∧
      tcpmtest_process_tx_msg_for_src s = (s, [])) ∧
    (pd_header_type s.tx_msg.header = PD_CTRL_PING →
      tcpmtest_process_tx_msg_for_snk s = (s, []) ∧
      tcpmtest_process_tx_msg_for_src s = (s, [])) ∧
    (pd_header_type s.tx_msg.header = PD_CTRL_PS_RDY →
      tcpmtest_process_tx_msg_for_snk s = (s, []) ∧
      tcpmtest_process_tx_msg_for_src s = (s, [])) ∧
    (pd_header_type s.tx_msg.header = PD_CTRL_ACCEPT →
      tcpmtest_process_tx_msg_for_snk s = (s, []) ∧
      tcpmtest_process_tx_msg_for_src s = tcpmtest_hard_reset s true) ∧
    (pd_header_type s.tx_msg.header = PD_CTRL_REJECT →
      tcpmtest_process_tx_msg_for_snk s = tcpmtest_hard_reset s true ∧
      tcpmtest_process_tx_msg_for_src s = tcpmtest_hard_reset s true) ∧
    (pd_header_type s.tx_msg.header = PD_CTRL_GET_SOURCE_CAP →
      tcpmtest_process_tx_msg_for_snk s = tcpmtest_hard_reset s true) ∧
    (pd_header_type s.tx_msg.header = PD_CTRL_DR_SWAP →
      tcpmtest_process_tx_msg_for_snk s = tcpmtest_hard_reset s true ∧
      tcpmtest_process_tx_msg_for_src s = tcpmtest_hard_reset s true) ∧
    (pd_header_type s.tx_msg.header = PD_CTRL_PR_SWAP →
      tcpmtest_process_tx_msg_for_snk s = tcpmtest_hard_reset s true ∧
      tcpmtest_process_tx_msg_for_src s = tcpmtest_hard_reset s true) ∧
    (pd_header_type s.tx_msg.header = PD_CTRL_VCONN_SWAP →
      tcpmtest_process_tx_msg_for_snk s = tcpmtest_hard_reset s true ∧
      tcpmtest_process_tx_msg_for_src s = tcpmtest_hard_reset s true) ∧
    (pd_header_type s.tx_msg.header = PD_CTRL_SOFT_RESET →
      tcpmtest_process_tx_msg_for_snk s = ({ s with rx_id := 0 }, []) ∧
      tcpmtest_process_tx_msg_for_src s = ({ s with rx_id := 0 }, [])) ∧
    (pd_header_type s.tx_msg.header = PD_CTRL_GET_SINK_CAP →
      tcpmtest_process_tx_msg_for_snk s = (tcpmtest_mk_snk_sink_cap s, []) ∧
      pd_header_cnt (tcpmtest_mk_snk_sink_cap s).rx_msg.header = 1 ∧
      pd_header_type (tcpmtest_mk_snk_sink_cap s).rx_msg.header = PD_DATA_SINK_CAP ∧
      (tcpmtest_mk_snk_sink_cap s).request_msg_rx = true) ∧
    (∀ b : Bool, tcpmtest_hard_reset s b =
      ({ s with request_mode_set := false, request_msg_rx := false,
                request_msg_tx := false, request_vbus_chng := false, rx_id := 0 },
       if b then [Notif.pd_hard_reset] else [])) := by
  refine ⟨?_, ?_, ?_, ?_, ?_, ?_, ?_, ?_, ?_, ?_, ?_, ?_, fun b => rfl⟩ <;>
    intro ht <;>
    first
      | exact ⟨by simp [tcpmtest_process_tx_msg_for_snk, hsop, hcnt, ht,
            PD_CTRL_GOOD_CRC, PD_CTRL_GOTO_MIN, PD_CTRL_ACCEPT, PD_CTRL_REJECT,
            PD_CTRL_PING, PD_CTRL_PS_RDY, PD_CTRL_GET_SOURCE_CAP,
            PD_CTRL_GET_SINK_CAP, PD_CTRL_DR_SWAP, PD_CTRL_PR_SWAP,
            PD_CTRL_VCONN_SWAP, PD_CTRL_WAIT, PD_CTRL_SOFT_RESET],
          (hdr_fields_snk_sink_cap s.rx_id).1,
          (hdr_fields_snk_sink_cap s.rx_id).2.1, rfl⟩
      | (simp [tcpmtest_process_tx_msg_for_snk, tcpmtest_process_tx_msg_for_src,
          hsop, hcnt, ht, PD_CTRL_GOOD_CRC, PD_CTRL_GOTO_MIN, PD_CTRL_ACCEPT,
          PD_CTRL_REJECT, PD_CTRL_PING, PD_CTRL_PS_RDY, PD_CTRL_GET_SOURCE_CAP,
          PD_CTRL_GET_SINK_CAP, PD_CTRL_DR_SWAP, PD_CTRL_PR_SWAP,
          PD_CTRL_VCONN_SWAP, PD_CTRL_WAIT, PD_CTRL_SOFT_RESET])

/-- C2 witness: the theorem applied to the concrete state in which a GoodCRC
control message was transmitted over SOP, discharging both hypotheses:
GoodCRC is absorbed with no reaction in both roles. -/
theorem tcpmtest_c2_control_msgs_witness :
    tcpmtest_process_tx_msg_for_snk sGoodCrcTx = (sGoodCrcTx, []) ∧
    tcpmtest_process_tx_msg_for_src sGoodCrcTx = (sGoodCrcTx, []) :=
  (tcpmtest_c2_control_msgs sGoodCrcTx rfl (by decide)).1 (by decide)

/-- C3 counterexample: in a source session sitting in SSTATE_SRC_RUN, an
unsolicited SinkCapabilities data message transmitted by the Port Manager is
silently absorbed — the simulator state is unchanged (the message-ID counter
keeps its value 5, no flag is cleared) and no callback at all (in particular
no hard reset) is issued. -/
theorem tcpmtest_c3_counterexample :
    sSinkCapTx.state = SSTATE_SRC_RUN ∧
    sSinkCapTx.sysfs_mode = TESTMODE_SRC ∧
    pd_header_cnt sSinkCapTx.tx_msg.header = 1 ∧
    pd_header_type sSinkCapTx.tx_msg.header = PD_DATA_SINK_CAP ∧
    sSinkCapTx.rx_id = 5 ∧
    tcpmtest_process_tx_msg_for_src sSinkCapTx = (sSinkCapTx, []) := by
  decide

/-- C3 (amended): in Source mode with the state machine in SSTATE_SRC_RUN,
an unsolicited SinkCapabilities data message transmitted over SOP is
absorbed with no reaction and no state change; the simulator does not issue
a hard reset (whereas an unsolicited SourceCapabilities data message does
trigger the peer-initiated hard reset). -/
theorem tcpmtest_c3_sinkcap_ignored (s : SimDState)
    (hst : s.state = SSTATE_SRC_RUN)
    (hsop : s.tx_type = TCPC_TX_SOP)
    (hcnt : pd_header_cnt s.tx_msg.header ≠ 0) :
    (pd_header_type s.tx_msg.header = PD_DATA_SINK_CAP →
      tcpmtest_process_tx_msg_for_src s = (s, [])) ∧
    (pd_header_type s.tx_msg.header = PD_DATA_SOURCE_CAP →
      tcpmtest_process_tx_msg_for_src s = tcpmtest_hard_reset s true) := by
  constructor <;> intro ht <;>
    simp [tcpmtest_process_tx_msg_for_src, hsop, hcnt, ht, PD_DATA_SOURCE_CAP,
      PD_DATA_REQUEST, PD_DATA_BIST, PD_DATA_SINK_CAP, PD_DATA_VENDOR_DEF]

/-- C3 witness: the amended theorem applied to the concrete SSTATE_SRC_RUN
state with a SinkCapabilities message, discharging every hypothesis. -/
theorem tcpmtest_c3_sinkcap_ignored_witness :
    tcpmtest_process_tx_msg_for_src sSinkCapTx = (sSinkCapTx, []) :=
  (tcpmtest_c3_sinkcap_ignored sSinkCapTx rfl rfl (by decide)).1 (by decide)

/-- C6: one advance step from SSTATE_SNK_START sets CC1 to Rd and CC2 to Ra,
clears VBUS-present, notifies the Port Manager of a CC change and moves to
SSTATE_SNK_RUN; thereafter a SourceCapabilities data message transmitted
over SOP makes the sink stage a Request data message whose single RDO
selects object position 1 with operating and maximum current 1500 mA and
the USB-communications-capable flag set. -/
theorem tcpmtest_c6_snk_attach_and_request :
    (∀ (s : SimDState) (t : Bool),
      tcpmtest_state_machine { s with state := SSTATE_SNK_START } t =
        ({ s with vbus_present := false, cc1_status := TYPEC_CC_RD,
                  cc2_status := TYPEC_CC_RA, state := SSTATE_SNK_RUN },
         [Notif.cc_change], none)) ∧
    (∀ s : SimDState, s.tx_type = TCPC_TX_SOP →
      pd_header_cnt s.tx_msg.header ≠ 0 →
      pd_header_type s.tx_msg.header = PD_DATA_SOURCE_CAP →
      tcpmtest_process_tx_msg_for_snk s = (tcpmtest_mk_snk_request s, []) ∧
      pd_header_cnt (tcpmtest_mk_snk_request s).rx_msg.header = 1 ∧
      pd_header_type (tcpmtest_mk_snk_request s).rx_msg.header = PD_DATA_REQUEST ∧
      (tcpmtest_mk_snk_request s).request_msg_rx = true ∧
      (tcpmtest_mk_snk_request s).rx_msg.payload =
        [RDO_FIXED 1 1500 1500 RDO_USB_COMM]) ∧
    (rdo_index (RDO_FIXED 1 1500 1500 RDO_USB_COMM) = 1 ∧
     rdo_op_current (RDO_FIXED 1 1500 1500 RDO_USB_COMM) = 1500 ∧
     rdo_max_current (RDO_FIXED 1 1500 1500 RDO_USB_COMM) = 1500 ∧
     RDO_FIXED 1 1500 1500 RDO_USB_COMM &&& RDO_USB_COMM ≠ 0) := by
  refine ⟨fun s t => rfl, fun s hsop hcnt ht => ?_, by decide⟩
  refine ⟨by simp [tcpmtest_process_tx_msg_for_snk, hsop, hcnt, ht,
      PD_DATA_SOURCE_CAP], (hdr_fields_snk_request s.rx_id).1,
    (hdr_fields_snk_request s.rx_id).2.1, rfl, rfl⟩

/-- C6 witness: the theorem applied to the concrete sink-running state with
a SourceCapabilities message, discharging every hypothesis. -/
theorem tcpmtest_c6_snk_attach_and_request_witness :
    tcpmtest_process_tx_msg_for_snk sSourceCapTx =
      (tcpmtest_mk_snk_request sSourceCapTx, []) :=
  (tcpmtest_c6_snk_attach_and_request.2.1 sSourceCapTx rfl (by decide) (by decide)).1

/-- C4 counterexample: with the active mode already NONE (state Idle) and a
latched mode-change request for NONE, the dispatcher does not enter
SSTATE_TO_NONE from this state — it only clears the request flag and stays
in SSTATE_NONE, refuting the claim that a None/Reset request enters
TransitionToIdle from any state. -/
theorem tcpmtest_c4_counterexample :
    sModeNoneReq.request_mode_set = true ∧
    sModeNoneReq.sysfs_mode_req = TESTMODE_NONE ∧
    tcpmtest_event_mode sModeNoneReq = { sModeNoneReq with request_mode_set := false } ∧
    (tcpmtest_event_work sModeNoneReq).1.state = SSTATE_NONE ∧
    (tcpmtest_event_work sModeNoneReq).1.state ≠ SSTATE_TO_NONE := by
  decide

/-- C4 (amended): the mode-change table of the dispatcher is: NONE or RESET
requested while a session is active (mode not NONE) enters SSTATE_TO_NONE,
and is a no-op when the mode is already NONE; SNK (respectively SRC)
requested while the mode is NONE records the new mode and enters
SSTATE_SNK_START (respectively SSTATE_SRC_START); every other combination
leaves mode and state unchanged.  Moreover, over every event sequence from
the initial state, mode NONE implies state SSTATE_NONE, so a mode write can
arm a session-start state only when the state machine is parked in
SSTATE_NONE (Idle). -/
theorem tcpmtest_c4_mode_change :
    (∀ s : SimDState, s.request_mode_set = true →
      ((s.sysfs_mode_req = TESTMODE_NONE ∨ s.sysfs_mode_req = TESTMODE_RESET) →
        tcpmtest_event_mode s =
          (if s.sysfs_mode ≠ TESTMODE_NONE then
             { s with request_mode_set := false, state := SSTATE_TO_NONE }
           else { s with request_mode_set := false })) ∧
      (s.sysfs_mode_req = TESTMODE_SNK →
        tcpmtest_event_mode s =
          (if s.sysfs_mode = TESTMODE_NONE then
             { s with request_mode_set := false, sysfs_mode := TESTMODE_SNK,
                      state := SSTATE_SNK_START }
           else { s with request_mode_set := false })) ∧
      (s.sysfs_mode_req = TESTMODE_SRC →
        tcpmtest_event_mode s =
          (if s.sysfs_mode = TESTMODE_NONE then
             { s with request_mode_set := false, sysfs_mode := TESTMODE_SRC,
                      state := SSTATE_SRC_START }
           else { s with request_mode_set := false }))) ∧
    (∀ evs : List Ev, ModeIdleInv (execEvs initState evs).1) ∧
    (∀ (evs : List Ev) (m : Nat),
      ((tcpmtest_event_mode
          (tcpmtest_sysfs_store_mode (execEvs initState evs).1 m)).state =
            SSTATE_SNK_START ∨
       (tcpmtest_event_mode
          (tcpmtest_sysfs_store_mode (execEvs initState evs).1 m)).state =
            SSTATE_SRC_START) →
      (execEvs initState evs).1.state = SSTATE_NONE ∨
      (execEvs initState evs).1.state = SSTATE_SNK_START ∨
      (execEvs initState evs).1.state = SSTATE_SRC_START) := by
  refine ⟨?_, ?_, ?_⟩
  · intro s hset
    refine ⟨?_, ?_, ?_⟩ <;> intro hreq <;>
      (unfold tcpmtest_event_mode; dsimp only; split_ifs <;>
        simp_all [TESTMODE_NONE, TESTMODE_SNK, TESTMODE_SRC, TESTMODE_RESET])
  · intro evs
    exact inv_execEvs evs initState (fun h => rfl)
  · intro evs m
    exact armed_only_from_idle (execEvs initState evs).1
      (inv_execEvs evs initState (fun h => rfl)) m

/-- C4 witness: the mode table of the amended theorem applied to the concrete
idle state with a latched NONE request (the hypotheses of the first and the
third conjunct discharged at concrete inputs): the request is consumed with
no state change, and the empty event sequence satisfies the invariant. -/
theorem tcpmtest_c4_mode_change_witness :
    tcpmtest_event_mode sModeNoneReq = { sModeNoneReq with request_mode_set := false } := by
  have h := (tcpmtest_c4_mode_change.1 sModeNoneReq rfl).1 (Or.inl rfl)
  simpa using h

/-- C9 counterexample: for a GetSinkCap control message transmitted over SOP
in the Source role, the polling-thread variant stages a SinkCapabilities
reply (message staged, counter advanced, no callback), while the
event-driven variant performs a peer-initiated hard reset (flags and counter
cleared, hard-reset callback) — the source-role reactions of the two variants
differ even after discarding staged payload words. -/
theorem tcpmtest_c9_counterexample :
    pd_header_cnt sGetSinkCapTx.tx_msg.header = 0 ∧
    pd_header_type sGetSinkCapTx.tx_msg.header = PD_CTRL_GET_SINK_CAP ∧
    tcpmtest_process_tx_msg_for_src_old sGetSinkCapTx =
      (tcpmtest_mk_snk_sink_cap sGetSinkCapTx, []) ∧
    tcpmtest_process_tx_msg_for_src sGetSinkCapTx =
      tcpmtest_hard_reset sGetSinkCapTx true ∧
    stripRxPayload (tcpmtest_process_tx_msg_for_src_old sGetSinkCapTx) ≠
      stripRxPayload (tcpmtest_process_tx_msg_for_src sGetSinkCapTx) := by
  decide

/-- C9 (amended): the sink-role message-processing functions of the two
historical variants implement the same inbound-message reaction behaviour up
to the payload words of the staged reply — for every simulator state the
resulting states agree on every field except the staged payload (they stage
replies with identical headers, set the same flags and counters, and issue
the same callbacks; the one payload difference is the DiscoverModes mode
object, VDO_MODE_DP versus VDO_DPM).  The source-role functions of the two
variants differ (see the counterexample). -/
theorem tcpmtest_c9_snk_variants_agree (s : SimDState) :
    stripRxPayload (tcpmtest_process_tx_msg_for_snk_old s) =
    stripRxPayload (tcpmtest_process_tx_msg_for_snk s) := by
  unfold tcpmtest_process_tx_msg_for_snk_old tcpmtest_process_tx_msg_for_snk
    tcpmtest_process_tx_vdm_for_snk_old tcpmtest_process_tx_vdm_for_snk
    tcpmtest_mk_snk_disc_modes_resp_vdm_old tcpmtest_mk_snk_disc_modes_resp_vdm
  dsimp only
  simp only [apply_ite stripRxPayload]
  dsimp only [stripRxPayload]
  simp only [apply_ite stripRxState]
  dsimp only [stripRxState]

theorem and_fifteen_eq_mod (n : Nat) : n &&& 15 = n % 16 := by
  simpa using Nat.and_pow_two_sub_one_eq_mod n 4

theorem hdr_type_lt_16 (h : Nat) : pd_header_type h < 16 := by
  rw [pd_header_type]
  simp only [PD_HEADER_TYPE_SHIFT, PD_HEADER_TYPE_MASK, Nat.shiftRight_zero]
  rw [and_fifteen_eq_mod]
  exact Nat.mod_lt _ (by norm_num)

theorem hdr_fields_snk_vdm5 (id : Nat) :
    pd_header_cnt (PD_HEADER_LE PD_DATA_VENDOR_DEF TYPEC_SINK TYPEC_DEVICE id 5) = 5 ∧
    pd_header_type (PD_HEADER_LE PD_DATA_VENDOR_DEF TYPEC_SINK TYPEC_DEVICE id 5) = PD_DATA_VENDOR_DEF ∧
    pd_header_id (PD_HEADER_LE PD_DATA_VENDOR_DEF TYPEC_SINK TYPEC_DEVICE id 5) = id % 8 := by
  have hlt : id % 8 < 8 := Nat.mod_lt _ (by norm_num)
  simp only [PD_HEADER_LE, pd_header_cnt, pd_header_type, pd_header_id, PD_DATA_VENDOR_DEF,
    TYPEC_SINK, TYPEC_SOURCE, TYPEC_DEVICE, TYPEC_HOST, PD_HEADER_TYPE_MASK,
    PD_HEADER_TYPE_SHIFT, PD_HEADER_PWR_ROLE, PD_HEADER_DATA_ROLE, PD_REV20,
    PD_HEADER_REV_SHIFT, PD_HEADER_ID_MASK, PD_HEADER_ID_SHIFT, PD_HEADER_CNT_MASK,
    PD_HEADER_CNT_SHIFT, and_seven_eq_mod]
  generalize id % 8 = b at hlt ⊢
  interval_cases b <;> decide

theorem hdr_fields_snk_vdm2 (id : Nat) :
    pd_header_cnt (PD_HEADER_LE PD_DATA_VENDOR_DEF TYPEC_SINK TYPEC_DEVICE id 2) = 2 ∧
    pd_header_type (PD_HEADER_LE PD_DATA_VENDOR_DEF TYPEC_SINK TYPEC_DEVICE id 2) = PD_DATA_VENDOR_DEF ∧
    pd_header_id (PD_HEADER_LE PD_DATA_VENDOR_DEF TYPEC_SINK TYPEC_DEVICE id 2) = id % 8 := by
  have hlt : id % 8 < 8 := Nat.mod_lt _ (by norm_num)
  simp only [PD_HEADER_LE, pd_header_cnt, pd_header_type, pd_header_id, PD_DATA_VENDOR_DEF,
    TYPEC_SINK, TYPEC_SOURCE, TYPEC_DEVICE, TYPEC_HOST, PD_HEADER_TYPE_MASK,
    PD_HEADER_TYPE_SHIFT, PD_HEADER_PWR_ROLE, PD_HEADER_DATA_ROLE, PD_REV20,
    PD_HEADER_REV_SHIFT, PD_HEADER_ID_MASK, PD_HEADER_ID_SHIFT, PD_HEADER_CNT_MASK,
    PD_HEADER_CNT_SHIFT, and_seven_eq_mod]
  generalize id % 8 = b at hlt ⊢
  interval_cases b <;> decide

theorem vdm_snk_rx_id (s : SimDState) :
    (tcpmtest_process_tx_vdm_for_snk s).rx_id = s.rx_id ∨
    (tcpmtest_process_tx_vdm_for_snk s).rx_id = (s.rx_id + 1) % U32 := by
  unfold tcpmtest_process_tx_vdm_for_snk tcpmtest_mk_snk_disc_modes_resp_vdm
    tcpmtest_mk_snk_disc_ident_resp_vdm tcpmtest_mk_snk_disc_svid_resp_vdm
  dsimp only
  split_ifs <;> simp

theorem snk_rx_id_only (s : SimDState) :
    (tcpmtest_process_tx_msg_for_snk s).1.rx_id = s.rx_id ∨
    (tcpmtest_process_tx_msg_for_snk s).1.rx_id = (s.rx_id + 1) % U32 ∨
    ((tcpmtest_process_tx_msg_for_snk s).1.rx_id = 0 ∧
      (s.tx_type = TCPC_TX_HARD_RESET ∨
       (s.tx_type = TCPC_TX_SOP ∧ pd_header_cnt s.tx_msg.header = 0 ∧
         (pd_header_type s.tx_msg.header = PD_CTRL_REJECT ∨
          pd_header_type s.tx_msg.header = PD_CTRL_GET_SOURCE_CAP ∨
          pd_header_type s.tx_msg.header = PD_CTRL_DR_SWAP ∨
          pd_header_type s.tx_msg.header = PD_CTRL_PR_SWAP ∨
          pd_header_type s.tx_msg.header = PD_CTRL_VCONN_SWAP ∨
          pd_header_type s.tx_msg.header = PD_CTRL_SOFT_RESET)) ∨
       (s.tx_type = TCPC_TX_SOP ∧ pd_header_cnt s.tx_msg.header ≠ 0 ∧
         (pd_header_type s.tx_msg.header = PD_DATA_REQUEST ∨
          pd_header_type s.tx_msg.header = PD_DATA_SINK_CAP)))) := by
  have hb : pd_header_type s.tx_msg.header < 16 := hdr_type_lt_16 _
  cases htx : s.tx_type
  case TCPC_TX_SOP =>
    by_cases hcnt : pd_header_cnt s.tx_msg.header = 0 <;>
      generalize hgt : pd_header_type s.tx_msg.header = t at hb ⊢ <;>
      interval_cases t <;>
      rcases vdm_snk_rx_id s with h | h <;>
      simp_all [tcpmtest_process_tx_msg_for_snk, PD_CTRL_GOOD_CRC,
        PD_CTRL_GOTO_MIN, PD_CTRL_ACCEPT, PD_CTRL_REJECT, PD_CTRL_PING,
        PD_CTRL_PS_RDY, PD_CTRL_GET_SOURCE_CAP, PD_CTRL_GET_SINK_CAP,
        PD_CTRL_DR_SWAP, PD_CTRL_PR_SWAP, PD_CTRL_VCONN_SWAP, PD_CTRL_WAIT,
        PD_CTRL_SOFT_RESET, PD_DATA_SOURCE_CAP, PD_DATA_REQUEST,
        PD_DATA_BIST, PD_DATA_SINK_CAP, PD_DATA_VENDOR_DEF,
        tcpmtest_hard_reset, tcpmtest_mk_snk_sink_cap, tcpmtest_mk_snk_request]
  all_goals
    simp_all [tcpmtest_process_tx_msg_for_snk, tcpmtest_hard_reset]

theorem src_rx_id_only (s : SimDState) :
    (tcpmtest_process_tx_msg_for_src s).1.rx_id = s.rx_id ∨
    (tcpmtest_process_tx_msg_for_src s).1.rx_id = (s.rx_id + 1) % U32 ∨
    ((tcpmtest_process_tx_msg_for_src s).1.rx_id = 0 ∧
      (s.tx_type = TCPC_TX_HARD_RESET ∨
       (s.tx_type = TCPC_TX_SOP ∧ pd_header_cnt s.tx_msg.header = 0 ∧
         (pd_header_type s.tx_msg.header = PD_CTRL_ACCEPT ∨
          pd_header_type s.tx_msg.header = PD_CTRL_REJECT ∨
          pd_header_type s.tx_msg.header = PD_CTRL_GET_SINK_CAP ∨
          pd_header_type s.tx_msg.header = PD_CTRL_DR_SWAP ∨
          pd_header_type s.tx_msg.header = PD_CTRL_PR_SWAP ∨
          pd_header_type s.tx_msg.header = PD_CTRL_VCONN_SWAP ∨
          pd_header_type s.tx_msg.header = PD_CTRL_SOFT_RESET)) ∨
       (s.tx_type = TCPC_TX_SOP ∧ pd_header_cnt s.tx_msg.header ≠ 0 ∧
        pd_header_type s.tx_msg.header = PD_DATA_SOURCE_CAP))) := by
  have hb : pd_header_type s.tx_msg.header < 16 := hdr_type_lt_16 _
  cases htx : s.tx_type
  case TCPC_TX_SOP =>
    by_cases hcnt : pd_header_cnt s.tx_msg.header = 0 <;>
      generalize hgt : pd_header_type s.tx_msg.header = t at hb ⊢ <;>
      interval_cases t <;>
      simp_all [tcpmtest_process_tx_msg_for_src, tcpmtest_process_tx_vdm_for_src,
        PD_CTRL_GOOD_CRC, PD_CTRL_GOTO_MIN, PD_CTRL_ACCEPT, PD_CTRL_REJECT,
        PD_CTRL_PING, PD_CTRL_PS_RDY, PD_CTRL_GET_SOURCE_CAP, PD_CTRL_GET_SINK_CAP,
        PD_CTRL_DR_SWAP, PD_CTRL_PR_SWAP, PD_CTRL_VCONN_SWAP, PD_CTRL_WAIT,
        PD_CTRL_SOFT_RESET, PD_DATA_SOURCE_CAP, PD_DATA_REQUEST, PD_DATA_BIST,
        PD_DATA_SINK_CAP, PD_DATA_VENDOR_DEF, tcpmtest_hard_reset,
        tcpmtest_mk_src_data_source_cap, apply_ite SimDState.rx_id, ite_self]
  all_goals
    simp_all [tcpmtest_process_tx_msg_for_src, tcpmtest_hard_reset]

theorem sm_rx_id_only (s : SimDState) (t : Bool) :
    (tcpmtest_state_machine s t).1.rx_id = s.rx_id ∨
    (tcpmtest_state_machine s t).1.rx_id = (s.rx_id + 1) % U32 ∨
    ((tcpmtest_state_machine s t).1.rx_id = 0 ∧ s.state = SSTATE_TO_NONE) := by
  cases hs : s.state <;> cases t <;> cases hpd : s.pd_rx_enable <;>
    cases hrx : s.request_msg_rx <;>
    simp_all [tcpmtest_state_machine, tcpmtest_mk_src_data_source_cap,
      tcpmtest_mk_src_accept, tcpmtest_mk_src_ps_rdy, tcpmtest_hard_reset]

theorem tmo_rx_id_only (s : SimDState) :
    (tcpmtest_tmo_work s).1.rx_id = s.rx_id ∨
    (tcpmtest_tmo_work s).1.rx_id = (s.rx_id + 1) % U32 ∨
    ((tcpmtest_tmo_work s).1.rx_id = 0 ∧ s.state = SSTATE_TO_NONE) := by
  rw [tmo_work_fst]
  by_cases hrx : s.request_msg_rx
  · simp only [hrx, if_true]
    exact sm_rx_id_only { s with request_msg_rx := false } true
  · simp only [hrx, Bool.false_eq_true, if_false]
    exact sm_rx_id_only s true

/-- C5: every one of the eight message synthesizers (sink Request, sink
SinkCapabilities, the three sink VDM discovery responses, source
SourceCapabilities, Accept and PS_RDY) places the current counter value
modulo 8 (the 3-bit ID field) in the staged header and advances the 32-bit
counter by exactly one, so consecutive synthesized messages carry strictly
increasing IDs modulo 8 (the DiscoverModes maker synthesizes nothing and
leaves the counter alone for a non-DisplayPort SVID); the counter is set to
zero by tcpmtest_hard_reset (both local and peer-notified), by a SoftReset
control message (which changes nothing else) and by the session-ending
SSTATE_TO_NONE step, and by nothing else: the facade operations, the sysfs
mode write, and the mode-change and VBUS dispatcher blocks never touch the
counter, and both inbound classifiers, the state machine and the
delayed-completion callback leave the counter unchanged or advance it by
one modulo 2^32 except exactly in the hard-reset/SoftReset message cases
and the SSTATE_TO_NONE step, where they zero it. -/
theorem tcpmtest_c5_msg_id_counter :
    (∀ s : SimDState,
      (tcpmtest_mk_snk_request s).rx_id = (s.rx_id + 1) % U32 ∧
      pd_header_id (tcpmtest_mk_snk_request s).rx_msg.header = s.rx_id % 8 ∧
      (tcpmtest_mk_snk_sink_cap s).rx_id = (s.rx_id + 1) % U32 ∧
      pd_header_id (tcpmtest_mk_snk_sink_cap s).rx_msg.header = s.rx_id % 8 ∧
      (tcpmtest_mk_snk_disc_ident_resp_vdm s).rx_id = (s.rx_id + 1) % U32 ∧
      pd_header_id (tcpmtest_mk_snk_disc_ident_resp_vdm s).rx_msg.header = s.rx_id % 8 ∧
      (tcpmtest_mk_snk_disc_svid_resp_vdm s).rx_id = (s.rx_id + 1) % U32 ∧
      pd_header_id (tcpmtest_mk_snk_disc_svid_resp_vdm s).rx_msg.header = s.rx_id % 8 ∧
      (tcpmtest_mk_snk_disc_modes_resp_vdm s USB_SID_DISPLAYPORT).rx_id =
        (s.rx_id + 1) % U32 ∧
      pd_header_id (tcpmtest_mk_snk_disc_modes_resp_vdm s USB_SID_DISPLAYPORT).rx_msg.header =
        s.rx_id % 8 ∧
      (tcpmtest_mk_src_data_source_cap s).rx_id = (s.rx_id + 1) % U32 ∧
      pd_header_id (tcpmtest_mk_src_data_source_cap s).rx_msg.header = s.rx_id % 8 ∧
      (tcpmtest_mk_src_accept s).rx_id = (s.rx_id + 1) % U32 ∧
      pd_header_id (tcpmtest_mk_src_accept s).rx_msg.header = s.rx_id % 8 ∧
      (tcpmtest_mk_src_ps_rdy s).rx_id = (s.rx_id + 1) % U32 ∧
      pd_header_id (tcpmtest_mk_src_ps_rdy s).rx_msg.header = s.rx_id % 8) ∧
    (∀ (s : SimDState) (svid : Nat), svid ≠ USB_SID_DISPLAYPORT →
      tcpmtest_mk_snk_disc_modes_resp_vdm s svid = s) ∧
    (∀ s : SimDState,
      pd_header_id (tcpmtest_mk_src_ps_rdy (tcpmtest_mk_src_accept s)).rx_msg.header =
        (pd_header_id (tcpmtest_mk_src_accept s).rx_msg.header + 1) % 8) ∧
    (∀ (s : SimDState) (b : Bool), (tcpmtest_hard_reset s b).1.rx_id = 0) ∧
    (∀ (s : SimDState) (t : Bool),
      (tcpmtest_state_machine { s with state := SSTATE_TO_NONE } t).1.rx_id = 0) ∧
    (∀ s : SimDState, s.tx_type = TCPC_TX_SOP →
      pd_header_cnt s.tx_msg.header = 0 →
      pd_header_type s.tx_msg.header = PD_CTRL_SOFT_RESET →
      tcpmtest_process_tx_msg_for_snk s = ({ s with rx_id := 0 }, []) ∧
      tcpmtest_process_tx_msg_for_src s = ({ s with rx_id := 0 }, [])) ∧
    (∀ (s : SimDState) (m : Nat), (tcpmtest_sysfs_store_mode s m).rx_id = s.rx_id) ∧
    (∀ (s : SimDState) (source sink : Bool),
      (tcpmtest_set_vbus s source sink).1.rx_id = s.rx_id) ∧
    (∀ (s : SimDState) (enable : Bool),
      (tcpmtest_set_pd_rx s enable).1.rx_id = s.rx_id) ∧
    (∀ (s : SimDState) (type : TxType) (msg : Option PdMessage),
      (tcpmtest_pd_transmit s type msg).rx_id = s.rx_id) ∧
    (∀ s : SimDState, (tcpmtest_event_mode s).rx_id = s.rx_id) ∧
    (∀ s : SimDState, (tcpmtest_event_vbus s).1.rx_id = s.rx_id) ∧
    (∀ s : SimDState,
      (tcpmtest_process_tx_msg_for_snk s).1.rx_id = s.rx_id ∨
      (tcpmtest_process_tx_msg_for_snk s).1.rx_id = (s.rx_id + 1) % U32 ∨
      ((tcpmtest_process_tx_msg_for_snk s).1.rx_id = 0 ∧
        (s.tx_type = TCPC_TX_HARD_RESET ∨
         (s.tx_type = TCPC_TX_SOP ∧ pd_header_cnt s.tx_msg.header = 0 ∧
           (pd_header_type s.tx_msg.header = PD_CTRL_REJECT ∨
            pd_header_type s.tx_msg.header = PD_CTRL_GET_SOURCE_CAP ∨
            pd_header_type s.tx_msg.header = PD_CTRL_DR_SWAP ∨
            pd_header_type s.tx_msg.header = PD_CTRL_PR_SWAP ∨
            pd_header_type s.tx_msg.header = PD_CTRL_VCONN_SWAP ∨
            pd_header_type s.tx_msg.header = PD_CTRL_SOFT_RESET)) ∨
         (s.tx_type = TCPC_TX_SOP ∧ pd_header_cnt s.tx_msg.header ≠ 0 ∧
           (pd_header_type s.tx_msg.header = PD_DATA_REQUEST ∨
            pd_header_type s.tx_msg.header = PD_DATA_SINK_CAP))))) ∧
    (∀ s : SimDState,
      (tcpmtest_process_tx_msg_for_src s).1.rx_id = s.rx_id ∨
      (tcpmtest_process_tx_msg_for_src s).1.rx_id = (s.rx_id + 1) % U32 ∨
      ((tcpmtest_process_tx_msg_for_src s).1.rx_id = 0 ∧
        (s.tx_type = TCPC_TX_HARD_RESET ∨
         (s.tx_type = TCPC_TX_SOP ∧ pd_header_cnt s.tx_msg.header = 0 ∧
           (pd_header_type s.tx_msg.header = PD_CTRL_ACCEPT ∨
            pd_header_type s.tx_msg.header = PD_CTRL_REJECT ∨
            pd_header_type s.tx_msg.header = PD_CTRL_GET_SINK_CAP ∨
            pd_header_type s.tx_msg.header = PD_CTRL_DR_SWAP ∨
            pd_header_type s.tx_msg.header = PD_CTRL_PR_SWAP ∨
            pd_header_type s.tx_msg.header = PD_CTRL_VCONN_SWAP ∨
            pd_header_type s.tx_msg.header = PD_CTRL_SOFT_RESET)) ∨
         (s.tx_type = TCPC_TX_SOP ∧ pd_header_cnt s.tx_msg.header ≠ 0 ∧
          pd_header_type s.tx_msg.header = PD_DATA_SOURCE_CAP)))) ∧
    (∀ (s : SimDState) (t : Bool),
      (tcpmtest_state_machine s t).1.rx_id = s.rx_id ∨
      (tcpmtest_state_machine s t).1.rx_id = (s.rx_id + 1) % U32 ∨
      ((tcpmtest_state_machine s t).1.rx_id = 0 ∧ s.state = SSTATE_TO_NONE)) ∧
    (∀ s : SimDState,
      (tcpmtest_tmo_work s).1.rx_id = s.rx_id ∨
      (tcpmtest_tmo_work s).1.rx_id = (s.rx_id + 1) % U32 ∨
      ((tcpmtest_tmo_work s).1.rx_id = 0 ∧ s.state = SSTATE_TO_NONE)) := by
  refine ⟨?_, ?_, ?_, fun s b => rfl, fun s t => rfl, ?_,
    ?_, ?_, ?_, fun s type msg => rfl, ?_, ?_,
    snk_rx_id_only, src_rx_id_only, sm_rx_id_only, tmo_rx_id_only⟩
  · intro s
    have hdp : tcpmtest_mk_snk_disc_modes_resp_vdm s USB_SID_DISPLAYPORT =
        { s with
          rx_msg := ⟨PD_HEADER_LE PD_DATA_VENDOR_DEF TYPEC_SINK TYPEC_DEVICE s.rx_id 2,
                     [VDO_STR USB_SID_DISPLAYPORT 0 0 CMDT_RSP_ACK CMD_DISCOVER_MODES,
                      VDO_MODE_DP 0 MODE_DP_PIN_C 0 1 MODE_DP_V13 MODE_DP_SNK]⟩,
          rx_id := (s.rx_id + 1) % U32,
          request_msg_rx := true } := by
      simp [tcpmtest_mk_snk_disc_modes_resp_vdm]
    refine ⟨rfl, (hdr_fields_snk_request s.rx_id).2.2,
      rfl, (hdr_fields_snk_sink_cap s.rx_id).2.2,
      rfl, (hdr_fields_snk_vdm5 s.rx_id).2.2,
      rfl, (hdr_fields_snk_vdm2 s.rx_id).2.2,
      ?_, ?_,
      rfl, (hdr_fields_src_source_cap s.rx_id).2.2,
      rfl, (hdr_fields_src_accept s.rx_id).2.2,
      rfl, (hdr_fields_src_ps_rdy s.rx_id).2.2⟩
    · rw [hdp]
    · rw [hdp]
      exact (hdr_fields_snk_vdm2 s.rx_id).2.2
  · intro s svid h
    simp [tcpmtest_mk_snk_disc_modes_resp_vdm, h]
  · intro s
    simp only [tcpmtest_mk_src_ps_rdy, tcpmtest_mk_src_accept]
    rw [(hdr_fields_src_ps_rdy ((s.rx_id + 1) % U32)).2.2,
      (hdr_fields_src_accept s.rx_id).2.2]
    exact succ_mod_u32_mod8 s.rx_id
  · intro s hsop hcnt ht
    constructor <;>
      simp [tcpmtest_process_tx_msg_for_snk, tcpmtest_process_tx_msg_for_src,
        hsop, hcnt, ht, PD_CTRL_GOOD_CRC, PD_CTRL_GOTO_MIN, PD_CTRL_ACCEPT,
        PD_CTRL_REJECT, PD_CTRL_PING, PD_CTRL_PS_RDY, PD_CTRL_GET_SOURCE_CAP,
        PD_CTRL_GET_SINK_CAP, PD_CTRL_DR_SWAP, PD_CTRL_PR_SWAP,
        PD_CTRL_VCONN_SWAP, PD_CTRL_WAIT, PD_CTRL_SOFT_RESET]
  · intro s m
    unfold tcpmtest_sysfs_store_mode
    split_ifs <;> rfl
  · intro s source sink
    unfold tcpmtest_set_vbus
    dsimp only
    split_ifs <;> rfl
  · intro s enable
    unfold tcpmtest_set_pd_rx
    split_ifs <;> rfl
  · intro s
    unfold tcpmtest_event_mode
    dsimp only
    split_ifs <;> rfl
  · intro s
    unfold tcpmtest_event_vbus
    split_ifs <;> rfl

/-- C5 witness: the SoftReset clause of the theorem applied to the concrete
state with counter value 6, discharging every hypothesis, together with one
concrete instance of the no-other-zeroing conjunct. -/
theorem tcpmtest_c5_msg_id_counter_witness :
    tcpmtest_process_tx_msg_for_snk sSoftResetTx =
      ({ sSoftResetTx with rx_id := 0 }, []) ∧
    tcpmtest_mk_snk_disc_modes_resp_vdm sSoftResetTx USB_SID_PD = sSoftResetTx :=
  ⟨(tcpmtest_c5_msg_id_counter.2.2.2.2.2.1 sSoftResetTx rfl (by decide) (by decide)).1,
   tcpmtest_c5_msg_id_counter.2.1 sSoftResetTx USB_SID_PD (by decide)⟩
